import Mathlib

/-!
Verification of the medicom DICOM toolkit core against its specification.

This file shallowly embeds the parts of the Rust sources that the verified
properties are about:

  * the element-stream iterator (`core/read/iter.rs`),
  * the pixel-data slice metadata and its validation
    (`load/pixeldata/pdinfo.rs`),
  * the 16-bit monochrome pixel decoder (`load/pixeldata/pixel_i16.rs`),
  * the window/level transfer function (`core/pixeldata/pdwinlevel.rs`,
    `load/pixeldata/winlevel.rs`),
  * the signed-to-unsigned shifts (`load/pixeldata/mod.rs`),
  * the image-volume assembler (`load/imgvol.rs`),
  * the DIMSE association error constructors (`dimse/error.rs`).

Modelling conventions:

  * Rust `usize`/`u16`/`u8` values are modelled as `Nat`; `i16`/`i32` values
    as `Int`, with explicit clamping or `emod 2^w` wherever the Rust code
    saturates or casts.
  * IEEE floats (`f32`/`f64`) are modelled as exact rationals `ℚ`.  The
    embedded code performs only comparisons, additions, subtractions,
    multiplications and divisions on them, all of which are exact in the
    ranges the claims exercise; NaN is not representable in this model.
  * Fallible Rust code (`Result`) is modelled with `Except`; iterator
    pulls (`Option<Result<..>>`) with `Option (Except ..)`.
  * Mutation of `&mut self` is modelled by explicit state passing: a Rust
    method `fn f(&mut self, ..) -> Result<T, E>` becomes a Lean function
    `State → .. → State × Except E T`.
-/

/-! ## Basic numeric helpers -/

/-- Two's-complement reinterpretation of a 16-bit word (`i16::from_??_bytes`
after assembling the word): values below `2^15` are themselves, larger words
wrap negative.  Faithful for `w < 2^16`. -/
def toI16 (w : Nat) : Int :=
  if w < 32768 then (w : Int) else (w : Int) - 65536

/-- Rust `u16 as i16` (wrapping cast), used by `ImageVolume::load_slice` for
the pixel-padding value. -/
def u16AsI16 (p : Nat) : Int :=
  if p < 32768 then (p : Int) else (p : Int) - 65536

/-- Rust `TryInto::<i16>::try_into` on a `u16`: succeeds exactly when the
value fits in `i16`. -/
def u16TryIntoI16 (p : Nat) : Option Int :=
  if p ≤ 32767 then some (p : Int) else none

/-- Truncation toward zero of a rational, the rounding used by Rust float to
integer `as` casts. -/
def ratTrunc (q : ℚ) : Int :=
  if 0 ≤ q then ⌊q⌋ else -⌊-q⌋

/-- Rust `f64 as i16`: truncate toward zero, then saturate to the `i16`
range. -/
def ratAsI16 (q : ℚ) : Int :=
  max (-32768) (min 32767 (ratTrunc q))

/-! ### Kernel-computable rational arithmetic

The library's `Rat.add`, `Rat.sub`, `Rat.mul` and `Rat.inv` are marked
irreducible, which blocks kernel evaluation (`decide`/`rfl`) on concrete
inputs.  The embedded code therefore uses the equivalent `mkRat`-based
operations below; the `_eq` lemmas identify them with the standard field
operations for symbolic reasoning. -/

def ratAdd (a b : ℚ) : ℚ := mkRat (a.num * b.den + b.num * a.den) (a.den * b.den)

def ratSub (a b : ℚ) : ℚ := mkRat (a.num * b.den - b.num * a.den) (a.den * b.den)

def ratMul (a b : ℚ) : ℚ := mkRat (a.num * b.num) (a.den * b.den)

def ratInv (q : ℚ) : ℚ := Rat.divInt (q.den : Int) q.num

def ratDiv (a b : ℚ) : ℚ := ratMul a (ratInv b)

def ratAbs (q : ℚ) : ℚ := mkRat (q.num.natAbs : Int) q.den

theorem ratAdd_eq (a b : ℚ) : ratAdd a b = a + b := by
  rw [ratAdd, Rat.mkRat_eq_div]
  push_cast
  conv_rhs => rw [← Rat.num_div_den a, ← Rat.num_div_den b]
  have ha : ((a.den : ℚ)) ≠ 0 := by exact_mod_cast a.den_nz
  have hb : ((b.den : ℚ)) ≠ 0 := by exact_mod_cast b.den_nz
  field_simp
  try ring

theorem ratSub_eq (a b : ℚ) : ratSub a b = a - b := by
  rw [ratSub, Rat.mkRat_eq_div]
  push_cast
  conv_rhs => rw [← Rat.num_div_den a, ← Rat.num_div_den b]
  have ha : ((a.den : ℚ)) ≠ 0 := by exact_mod_cast a.den_nz
  have hb : ((b.den : ℚ)) ≠ 0 := by exact_mod_cast b.den_nz
  field_simp
  try ring

theorem ratMul_eq (a b : ℚ) : ratMul a b = a * b := by
  rw [ratMul, Rat.mkRat_eq_div]
  push_cast
  conv_rhs => rw [← Rat.num_div_den a, ← Rat.num_div_den b]
  have ha : ((a.den : ℚ)) ≠ 0 := by exact_mod_cast a.den_nz
  have hb : ((b.den : ℚ)) ≠ 0 := by exact_mod_cast b.den_nz
  field_simp

theorem ratInv_eq (q : ℚ) : ratInv q = q⁻¹ := (Rat.inv_def' q).symm

theorem ratDiv_eq (a b : ℚ) : ratDiv a b = a / b := by
  rw [ratDiv, ratMul_eq, ratInv_eq, div_eq_mul_inv]

theorem ratAbs_eq (q : ℚ) : ratAbs q = |q| := by
  rw [ratAbs, Rat.mkRat_eq_div]
  rcases le_or_lt 0 q.num with h | h
  · rw [abs_of_nonneg (by exact_mod_cast Rat.num_nonneg.mp h),
      Int.natAbs_of_nonneg h]
    exact_mod_cast Rat.num_div_den q
  · rw [abs_of_neg (by exact_mod_cast Rat.num_neg.mp h)]
    have hcast : ((q.num.natAbs : Int) : ℚ) = -(q.num : ℚ) := by
      rw [Int.ofNat_natAbs_of_nonpos (by omega)]
      push_cast
      ring
    rw [hcast, neg_div, Rat.num_div_den q]

/-- The constant `0.5` of the window/level computation. -/
def ratHalf : ℚ := mkRat 1 2

theorem ratHalf_eq : ratHalf = 1/2 := by
  rw [ratHalf, Rat.mkRat_eq_div]
  norm_num

/-! ## Signed-to-unsigned shifts — `load/pixeldata/mod.rs`, `PixelDataSlice` -/

/-- Embedding of `PixelDataSlice::shift_i8`:
`(i16::from(val).saturating_add(1) + i16::from(i8::MAX)) as u8`.
The `i16` saturating add caps at `i16::MAX`; the final `as u8` keeps the low
8 bits. -/
def PixelDataSlice.shift_i8 (val : Int) : Int :=
  (min (val + 1) 32767 + 127).emod 256

/-- Embedding of `PixelDataSlice::shift_i16`:
`(i32::from(val).saturating_add(1) + i32::from(i16::MAX)) as u16`. -/
def PixelDataSlice.shift_i16 (val : Int) : Int :=
  (min (val + 1) 2147483647 + 32767).emod 65536

/-- Embedding of `PixelDataSlice::shift_i32`:
`(i64::from(val).saturating_add(1) + i64::from(i32::MAX)) as u32`. -/
def PixelDataSlice.shift_i32 (val : Int) : Int :=
  (min (val + 1) 9223372036854775807 + 2147483647).emod 4294967296

/-! ## Window/Level — `core/pixeldata/pdwinlevel.rs` (f64) and
`load/pixeldata/winlevel.rs` (f32); both `apply` bodies are term-for-term
identical, so a single rational embedding covers both. -/

structure WindowLevel where
  name : String
  center : ℚ
  width : ℚ
  out_min : ℚ
  out_max : ℚ
deriving DecidableEq

/-- Embedding of `WindowLevel::apply` (DICOM PS3.3 C.11.2.1.2.1): effective
center `c - 0.5`, effective width `w - 1`, clamp below/above, linear remap
in between.  Written with the kernel-computable rational operations. -/
def WindowLevel.apply (wl : WindowLevel) (value : ℚ) : ℚ :=
  let center := ratSub wl.center ratHalf
  let width := ratSub wl.width 1
  let half_width := ratDiv width 2
  if value ≤ ratSub center half_width then
    wl.out_min
  else if ratAdd center half_width < value then
    wl.out_max
  else
    ratAdd
      (ratMul (ratAdd (ratDiv (ratSub value center) width) ratHalf)
        (ratSub wl.out_max wl.out_min))
      wl.out_min

/-! ## Theorems for claims C5 and C7 -/

/-- C7: the signed-to-unsigned shift functions map the extreme and zero
inputs exactly as specified: `shift_i8` sends `i8::MIN, 0, i8::MAX` to
`0, 128, 255`; `shift_i16` sends `i16::MIN, 0, i16::MAX` to `0, 32768,
65535`; `shift_i32` sends `i32::MIN, 0, i32::MAX` to `0, 2147483648,
4294967295`. -/
theorem shift_endpoints_spec :
    PixelDataSlice.shift_i8 (-128) = 0 ∧
    PixelDataSlice.shift_i8 0 = 128 ∧
    PixelDataSlice.shift_i8 127 = 255 ∧
    PixelDataSlice.shift_i16 (-32768) = 0 ∧
    PixelDataSlice.shift_i16 0 = 32768 ∧
    PixelDataSlice.shift_i16 32767 = 65535 ∧
    PixelDataSlice.shift_i32 (-2147483648) = 0 ∧
    PixelDataSlice.shift_i32 0 = 2147483648 ∧
    PixelDataSlice.shift_i32 2147483647 = 4294967295 := by
  refine ⟨?_, ?_, ?_, ?_, ?_, ?_, ?_, ?_, ?_⟩ <;> decide

/-- C5 (counterexample): the claim asserts `apply(center + width/2) =
out_max` for every window/level, but a degenerate window of width 0 makes
`center + width/2` fall into the `value <= c - w/2` clamp, returning
`out_min` instead.  Witnessed at `(center, width, out_min, out_max) =
(0, 0, 0, 1)`. -/
theorem winlevel_apply_upper_fails_at_zero_width :
    ((0 : ℚ)) = (WindowLevel.mk "w" 0 0 0 1).center +
        (WindowLevel.mk "w" 0 0 0 1).width / 2 ∧
    (WindowLevel.mk "w" 0 0 0 1).apply 0 = (WindowLevel.mk "w" 0 0 0 1).out_min ∧
    (WindowLevel.mk "w" 0 0 0 1).out_min ≠ (WindowLevel.mk "w" 0 0 0 1).out_max := by
  refine ⟨by norm_num, by decide, by decide⟩

/-- C5 (amended): for every window/level, `apply(center - width/2) = out_min`
holds unconditionally, and `apply(center + width/2) = out_max` holds whenever
the width is positive. -/
theorem winlevel_apply_endpoints (wl : WindowLevel) :
    wl.apply (wl.center - wl.width / 2) = wl.out_min ∧
    (0 < wl.width → wl.apply (wl.center + wl.width / 2) = wl.out_max) := by
  constructor
  · simp only [WindowLevel.apply, ratSub_eq, ratAdd_eq, ratDiv_eq, ratMul_eq,
      ratHalf_eq]
    split
    · rfl
    · rename_i hnot
      exact absurd (by linarith : wl.center - wl.width / 2 ≤
        wl.center - 1/2 - (wl.width - 1) / 2) hnot
  · intro hw
    simp only [WindowLevel.apply, ratSub_eq, ratAdd_eq, ratDiv_eq, ratMul_eq,
      ratHalf_eq]
    split
    · rename_i hcon
      exact absurd hcon (by intro h; linarith)
    · split
      · rfl
      · rename_i hnot
        exact absurd (by linarith : wl.center - 1/2 + (wl.width - 1) / 2 <
          wl.center + wl.width / 2) hnot

/-- C5 (witness for the amended theorem): at the window/level
`(center, width, out_min, out_max) = (10, 4, 0, 255)` the width is positive,
and both endpoint equations hold. -/
theorem winlevel_apply_endpoints_witness :
    (WindowLevel.mk "w" 10 4 0 255).apply (10 - 4 / 2) = 0 ∧
    ((0 : ℚ) < 4 → (WindowLevel.mk "w" 10 4 0 255).apply (10 + 4 / 2) = 255) :=
  winlevel_apply_endpoints (WindowLevel.mk "w" 10 4 0 255)

/-! ## Element-stream iterator — `core/read/iter.rs` -/

/-- Parse errors, as matched by `<Parser as Iterator>::next`.  The source
enum `ParseError` has many variants; `next` only distinguishes
`ExpectedEOF` from everything else and wraps non-EOF errors in
`DetailedError`, so the remaining variants are represented by
`UnexpectedEOF` and `OtherError`. -/
inductive ParseError where
  | ExpectedEOF : ParseError
  | UnexpectedEOF : ParseError
  | OtherError (msg : String) : ParseError
  | DetailedError (source : ParseError) (detail : String) : ParseError
deriving DecidableEq

/-- State of `Parser`: the `iterator_ended` flag consulted by `next`, plus
the rest of the parser state (position, transfer syntax, charset, sequence
path, ...) abstracted as `σ`; `Parser::iterate` is not part of `next` and is
passed as a function on `σ`. -/
structure Parser (σ : Type) where
  iterator_ended : Bool
  inner : σ

/-- Embedding of `<Parser as Iterator>::next` (`core/read/iter.rs`).
`iterate` models `Parser::iterate` (a state mutation returning
`ParseResult<Option<DicomElement>>`), and `dbg` models
`Parser::get_current_debug_str`. -/
def Parser.next {σ α : Type} (iterate : σ → σ × Except ParseError (Option α))
    (dbg : σ → String) (p : Parser σ) : Parser σ × Option (Except ParseError α) :=
  if p.iterator_ended then
    (p, none)
  else
    match iterate p.inner with
    | (s, .error .ExpectedEOF) => (⟨true, s⟩, none)
    | (s, .error e) => (⟨true, s⟩, some (.error (.DetailedError e (dbg s))))
    | (s, .ok none) => (⟨true, s⟩, none)
    | (s, .ok (some element)) => (⟨p.iterator_ended, s⟩, some (.ok element))

/-- One pull, keeping only the successor state. -/
def Parser.nextState {σ α : Type} (iterate : σ → σ × Except ParseError (Option α))
    (dbg : σ → String) (p : Parser σ) : Parser σ :=
  (Parser.next iterate dbg p).1

/-- Once `iterator_ended` is set, `next` returns `None` and leaves the
parser untouched. -/
theorem Parser.next_of_ended {σ α : Type}
    (iterate : σ → σ × Except ParseError (Option α)) (dbg : σ → String)
    (p : Parser σ) (h : p.iterator_ended = true) :
    Parser.next iterate dbg p = (p, none) := by
  simp [Parser.next, h]

/-- Any pull that does not produce an element (it returns `None` or an
error) leaves `iterator_ended` set in the successor state. -/
theorem Parser.next_non_element_ends {σ α : Type}
    (iterate : σ → σ × Except ParseError (Option α)) (dbg : σ → String)
    (p p1 : Parser σ) (out : Option (Except ParseError α))
    (hstep : Parser.next iterate dbg p = (p1, out))
    (hout : out = none ∨ ∃ e, out = some (.error e)) :
    p1.iterator_ended = true := by
  by_cases hend : p.iterator_ended
  · rw [Parser.next_of_ended iterate dbg p hend] at hstep
    cases hstep
    exact hend
  · unfold Parser.next at hstep
    simp only [hend] at hstep
    rcases hres : iterate p.inner with ⟨s, r⟩
    rw [hres] at hstep
    match r with
    | .error .ExpectedEOF => simp at hstep; exact hstep.1.symm ▸ rfl
    | .error (.UnexpectedEOF) => simp at hstep; exact hstep.1.symm ▸ rfl
    | .error (.OtherError m) => simp at hstep; exact hstep.1.symm ▸ rfl
    | .error (.DetailedError a b) => simp at hstep; exact hstep.1.symm ▸ rfl
    | .ok none => simp at hstep; exact hstep.1.symm ▸ rfl
    | .ok (some el) =>
      simp at hstep
      rcases hout with h | ⟨e, h⟩
      · rw [← hstep.2] at h; cases h
      · rw [← hstep.2] at h; cases h

/-- C1: once the element iterator has returned an error or its first
end-of-sequence (`None`), every subsequent pull returns `None`: for any
parser state and any `iterate` behaviour, if a pull yields `none` or an
error, then all later pulls yield `none` (and the state no longer
changes). -/
theorem parser_iter_terminal (σ α : Type)
    (iterate : σ → σ × Except ParseError (Option α)) (dbg : σ → String)
    (p p1 : Parser σ) (out : Option (Except ParseError α))
    (hstep : Parser.next iterate dbg p = (p1, out))
    (hout : out = none ∨ ∃ e, out = some (.error e)) :
    ∀ n : Nat,
      (Parser.next iterate dbg ((Parser.nextState iterate dbg)^[n] p1)).2 = none := by
  have hend : p1.iterator_ended = true :=
    Parser.next_non_element_ends iterate dbg p p1 out hstep hout
  have hfix : ∀ n : Nat, (Parser.nextState iterate dbg)^[n] p1 = p1 := by
    intro n
    induction n with
    | zero => rfl
    | succ k ih =>
      rw [Function.iterate_succ_apply', ih, Parser.nextState,
        Parser.next_of_ended iterate dbg p1 hend]
  intro n
  rw [hfix n, Parser.next_of_ended iterate dbg p1 hend]

/-- An `iterate` behaviour that always fails with `UnexpectedEOF`, used as
a concrete instance for the iterator-termination theorem. -/
def failingIterate (s : Unit) : Unit × Except ParseError (Option Unit) :=
  (s, .error .UnexpectedEOF)

/-- C1 (witness): a parser over the trivial inner state whose `iterate`
always fails with `UnexpectedEOF`: the first pull reports a detailed error,
and the following pull (and every later one) yields `none`. -/
theorem parser_iter_terminal_witness :
    ((Parser.next failingIterate (fun _ => "") (Parser.mk false ())).2 =
      some (.error (.DetailedError .UnexpectedEOF ""))) ∧
    (Parser.next failingIterate (fun _ => "")
      ((Parser.nextState failingIterate (fun _ => ""))^[0]
        (Parser.next failingIterate (fun _ => "") (Parser.mk false ())).1)).2 =
      none :=
  ⟨rfl,
    parser_iter_terminal Unit Unit failingIterate (fun _ => "")
      (Parser.mk false ()) _ _ rfl
      (Or.inr ⟨.DetailedError .UnexpectedEOF "", rfl⟩) 0⟩

/-! ## DIMSE association errors — `dimse/error.rs` -/

/-- DIMSE-level errors, as in `dimse/error.rs` (`DimseError`); variants not
used by the claims carry their payloads in simplified form. -/
inductive DimseError where
  | InvalidPduType (val : Nat) : DimseError
  | InvalidAeTitle (aet : List Nat) : DimseError
  | UnexpectedEOFDimse : DimseError
  | ElementMissingFromRequest (elem : String) : DimseError
  | InvalidPduParseState (state : String) : DimseError
  | UnexpectedPDU (pdu_type : Nat) : DimseError
  | GeneralError (msg : String) : DimseError
deriving DecidableEq

/-- Modelled from the spec: the A-ASSOCIATE-RJ PDU (`dimse/pdus.rs` is not
under `src/`); per the spec it carries a `(result, source, reason)` triple,
which is the argument order of `AssocRJ::new` in `dimse/error.rs`. -/
structure AssocRJ where
  result : Nat
  source : Nat
  reason : Nat
deriving DecidableEq

/-- Modelled from the spec: the A-ABORT PDU (`dimse/pdus.rs` is not under
`src/`); per the spec it carries a `(source, reason)` pair, which is the
argument order of `Abort::new` in `dimse/error.rs`. -/
structure Abort where
  source : Nat
  reason : Nat
deriving DecidableEq

/-- Embedding of `AssocRsp` from `dimse/error.rs`. -/
inductive AssocRsp where
  | RJ (rj : AssocRJ) : AssocRsp
  | AB (ab : Abort) : AssocRsp
deriving DecidableEq

/-- Embedding of `AssocError` from `dimse/error.rs`: an optional response
PDU to send before tearing down, plus the underlying error. -/
structure AssocError where
  rsp : Option AssocRsp
  err : DimseError

/-- Embedding of `AssocError::ab_failure`. -/
def AssocError.ab_failure (err : DimseError) : AssocError :=
  ⟨some (.AB ⟨0, 0⟩), err⟩

/-- Embedding of `AssocError::ab_unexpected_pdu`. -/
def AssocError.ab_unexpected_pdu (err : DimseError) : AssocError :=
  ⟨some (.AB ⟨2, 2⟩), err⟩

/-- Embedding of `AssocError::ab_invalid_pdu`. -/
def AssocError.ab_invalid_pdu (err : DimseError) : AssocError :=
  ⟨some (.AB ⟨2, 6⟩), err⟩

/-- Embedding of `AssocError::rj_failure`. -/
def AssocError.rj_failure (err : DimseError) : AssocError :=
  ⟨some (.RJ ⟨2, 1, 1⟩), err⟩

/-- Embedding of `AssocError::rj_calling_aet`. -/
def AssocError.rj_calling_aet (err : DimseError) : AssocError :=
  ⟨some (.RJ ⟨2, 1, 3⟩), err⟩

/-- Embedding of `AssocError::rj_called_aet`. -/
def AssocError.rj_called_aet (err : DimseError) : AssocError :=
  ⟨some (.RJ ⟨2, 1, 7⟩), err⟩

/-- Embedding of `AssocError::rj_unsupported`. -/
def AssocError.rj_unsupported (err : DimseError) : AssocError :=
  ⟨some (.RJ ⟨2, 1, 2⟩), err⟩

/-- Faults during association handling that the spec assigns response codes
to. -/
inductive AssocFault where
  | CalledAetMismatch (aet : List Nat) : AssocFault
  | CallingAetMismatch (aet : List Nat) : AssocFault
  | UnexpectedPduFault (pdu_type : Nat) : AssocFault
  | InvalidPduFault (pdu_type : Nat) : AssocFault
  | InvalidParseState (state : String) : AssocFault

/-- Modelled from the spec: the association state machine
(`dimse/assoc/*.rs` is not under `src/`) responds to a called-AE-title
mismatch with `rj_called_aet`, to a calling-AE-title mismatch with
`rj_calling_aet`, to an unexpected PDU with `ab_unexpected_pdu`, and to an
invalid PDU or invalid PDU parse state with `ab_invalid_pdu`, each wrapping
the corresponding `DimseError`. -/
def handle_assoc_fault : AssocFault → AssocError
  | .CalledAetMismatch aet => AssocError.rj_called_aet (.InvalidAeTitle aet)
  | .CallingAetMismatch aet => AssocError.rj_calling_aet (.InvalidAeTitle aet)
  | .UnexpectedPduFault t => AssocError.ab_unexpected_pdu (.UnexpectedPDU t)
  | .InvalidPduFault t => AssocError.ab_invalid_pdu (.InvalidPduType t)
  | .InvalidParseState s => AssocError.ab_invalid_pdu (.InvalidPduParseState s)

/-- C8: the association error responses carry exactly the specified codes:
a called-AE-title mismatch produces A-ASSOCIATE-RJ `(result, source,
reason) = (2, 1, 7)`; a calling-AE-title mismatch produces `(2, 1, 3)`; an
unexpected PDU produces A-ABORT `(source, reason) = (2, 2)`; an invalid PDU
or an invalid PDU parse state produces A-ABORT `(2, 6)`. -/
theorem assoc_fault_response_codes (aet : List Nat) (t : Nat) (s : String) :
    (handle_assoc_fault (.CalledAetMismatch aet)).rsp = some (.RJ ⟨2, 1, 7⟩) ∧
    (handle_assoc_fault (.CallingAetMismatch aet)).rsp = some (.RJ ⟨2, 1, 3⟩) ∧
    (handle_assoc_fault (.UnexpectedPduFault t)).rsp = some (.AB ⟨2, 2⟩) ∧
    (handle_assoc_fault (.InvalidPduFault t)).rsp = some (.AB ⟨2, 6⟩) ∧
    (handle_assoc_fault (.InvalidParseState s)).rsp = some (.AB ⟨2, 6⟩) :=
  ⟨rfl, rfl, rfl, rfl, rfl⟩

/-! ## Pixel-data core types — `load/pixeldata/mod.rs` -/

/-- Value representations, as compared by `PixelDataSliceInfo::validate`
(`self.vr != &vr::OB && self.vr != &vr::OW`); all other VRs are collapsed
into `OtherVR` with their two-letter code. -/
inductive VR where
  | OB : VR
  | OW : VR
  | OtherVR (code : String) : VR
deriving DecidableEq

/-- Embedding of `PhotoInterp` from `load/pixeldata/mod.rs`. -/
inductive PhotoInterp where
  | Unsupported (value : String) : PhotoInterp
  | Rgb : PhotoInterp
  | Monochrome1 : PhotoInterp
  | Monochrome2 : PhotoInterp
deriving DecidableEq

/-- Embedding of `PhotoInterp::is_rgb`. -/
def PhotoInterp.is_rgb (pi : PhotoInterp) : Bool :=
  pi == PhotoInterp.Rgb

/-- Embedding of `PhotoInterp::is_monochrome`. -/
def PhotoInterp.is_monochrome (pi : PhotoInterp) : Bool :=
  pi == PhotoInterp.Monochrome1 || pi == PhotoInterp.Monochrome2

/-- Embedding of `BitsAlloc` from `load/pixeldata/mod.rs`. -/
inductive BitsAlloc where
  | Unsupported (val : Nat) : BitsAlloc
  | Eight : BitsAlloc
  | Sixteen : BitsAlloc
  | ThirtyTwo : BitsAlloc
deriving DecidableEq

/-- Embedding of `BitsAlloc::from_val`. -/
def BitsAlloc.from_val (val : Nat) : BitsAlloc :=
  if val = 8 then BitsAlloc.Eight
  else if val = 16 then BitsAlloc.Sixteen
  else if val = 32 then BitsAlloc.ThirtyTwo
  else BitsAlloc.Unsupported val

/-- Embedding of `BitsAlloc::val`. -/
def BitsAlloc.val : BitsAlloc → Nat
  | .Unsupported v => v
  | .Eight => 8
  | .Sixteen => 16
  | .ThirtyTwo => 32

/-- Pixel-data errors, per `PixelDataError` (the error enum of
`load/pixeldata/mod.rs`; the source formats dynamic values into its message
strings, the model keeps a static prefix of each message). -/
inductive PixelDataError where
  | NotDICOM : PixelDataError
  | MissingPixelData : PixelDataError
  | InvalidSize (cols rows : Nat) : PixelDataError
  | InvalidDims (msg : String) : PixelDataError
  | InvalidVR (vr : VR) : PixelDataError
  | InvalidBitsAlloc (val : Nat) : PixelDataError
  | InvalidPhotoInterpSamples (pi : PhotoInterp) (samples : Nat) : PixelDataError
  | InvalidPixelSource (idx : Nat) : PixelDataError
  | InconsistentSliceFormat (sop : String) (reason : String) : PixelDataError
  | ParseFailure (msg : String) : PixelDataError
  | BytesError : PixelDataError
  | PixelValueError : PixelDataError
deriving DecidableEq

/-! ## Volume dimensions — `load/imgvol.rs`, `VolDims` -/

/-- Embedding of `EPSILON_F64 = 0.01` (idealized as the exact rational). -/
def EPSILON_F64 : ℚ := mkRat 1 100

/-- Embedding of `EPSILON_F32 = 0.01` (idealized as the exact rational). -/
def EPSILON_F32 : ℚ := mkRat 1 100

/-- Voxel counts per axis; the source uses a `(usize, usize, usize)` tuple
whose components `.0/.1/.2` are the `x/y/z` fields here. -/
structure VolCounts where
  x : Nat
  y : Nat
  z : Nat
deriving DecidableEq

/-- Voxel spacing per axis in mm; source tuple `(f32, f32, f32)`. -/
structure VoxDims where
  x : ℚ
  y : ℚ
  z : ℚ
deriving DecidableEq

/-- A point in DICOM patient space (used for origins and image positions). -/
structure Vec3 where
  x : ℚ
  y : ℚ
  z : ℚ
deriving DecidableEq

/-- Embedding of `VolDims` from `load/imgvol.rs`. -/
structure VolDims where
  origin_x : ℚ
  origin_y : ℚ
  origin_z : ℚ
  counts : VolCounts
  vox_dims : VoxDims
deriving DecidableEq

/-- Embedding of `VolDims::is_valid_dim`: not NaN (unrepresentable here)
and strictly positive. -/
def VolDims.is_valid_dim (dim : ℚ) : Bool :=
  decide (0 < dim)

/-- Embedding of `VolDims::origin`. -/
def VolDims.origin (d : VolDims) : Vec3 :=
  ⟨d.origin_x, d.origin_y, d.origin_z⟩

/-- Embedding of `VolDims::inc_z_count`. -/
def VolDims.inc_z_count (d : VolDims) : VolDims :=
  { d with counts := { d.counts with z := d.counts.z + 1 } }

/-- Embedding of `VolDims::set_origin`. -/
def VolDims.set_origin (d : VolDims) (o : Vec3) : VolDims :=
  { d with origin_x := o.x, origin_y := o.y, origin_z := o.z }

/-- Embedding of `VolDims::matches`: exact x/y count equality and voxel
spacing within `EPSILON_F32` on each axis; `counts.z` and the origin are not
compared. -/
def VolDims.matches (a b : VolDims) : Bool :=
  a.counts.x == b.counts.x && a.counts.y == b.counts.y &&
  decide (ratAbs (ratSub a.vox_dims.x b.vox_dims.x) < EPSILON_F32) &&
  decide (ratAbs (ratSub a.vox_dims.y b.vox_dims.y) < EPSILON_F32) &&
  decide (ratAbs (ratSub a.vox_dims.z b.vox_dims.z) < EPSILON_F32)

/-! ## Pixel-data slice metadata — `load/pixeldata/pdinfo.rs` -/

/-- Embedding of `PixelDataSliceInfo`.  The `dcmroot` back-reference is
replaced by the `sop_uid` the code extracts from it
(`dcmroot.sop_instance_id()`); `vol_dims` is stored as a field, see
`PixelDataSliceInfo.vol_dims`. -/
structure PixelDataSliceInfo where
  sop_uid : String
  big_endian : Bool
  vr : VR
  slice_thickness : ℚ
  spacing_between_slices : ℚ
  samples_per_pixel : Nat
  photo_interp : Option PhotoInterp
  planar_config : Nat
  num_frames : Int
  cols : Nat
  rows : Nat
  pixel_spacing : ℚ × ℚ
  pixel_pad : Option Nat
  bits_alloc : BitsAlloc
  bits_stored : Nat
  high_bit : Nat
  pixel_rep : Nat
  slope : Option ℚ
  intercept : Option ℚ
  unit : String
  patient_pos : String
  image_pos : Vec3
  min_val : ℚ
  max_val : ℚ
  win_levels : List WindowLevel
  pd_bytes : List Nat
  vol_dims_geom : VolDims
deriving DecidableEq

/-- Modelled from the spec: `PixelDataSliceInfo::vol_dims()` as called by
`ImageVolume::load_slice` must produce the `VolDims` of `load/imgvol.rs`
(origin, counts, voxel spacing); the `pdinfo.rs` under `src/` predates that
`VolDims` shape (its `vol_dims` calls a five-argument `VolDims::new` with no
origin), so the geometry the accessor returns is carried as the
`vol_dims_geom` field: origin from ImagePositionPatient, x/y counts from
Columns/Rows, voxel x/y spacing from PixelSpacing (second value is x, first
is y), z spacing from SpacingBetweenSlices if valid else SliceThickness. -/
def PixelDataSliceInfo.vol_dims (i : PixelDataSliceInfo) : VolDims :=
  i.vol_dims_geom

/-- Embedding of `PixelDataSliceInfo::stride`. -/
def PixelDataSliceInfo.stride (i : PixelDataSliceInfo) : Nat :=
  if i.planar_config = 0 then 1 else i.pd_bytes.length / i.samples_per_pixel

/-- Embedding of `PixelDataSliceInfo::is_rgb`. -/
def PixelDataSliceInfo.is_rgb (i : PixelDataSliceInfo) : Bool :=
  i.photo_interp.any PhotoInterp.is_rgb && i.samples_per_pixel == 3

/-- Embedding of `PixelDataSliceInfo::is_signed`
(`self.pixel_rep != 0`). -/
def PixelDataSliceInfo.is_signed (i : PixelDataSliceInfo) : Bool :=
  i.pixel_rep != 0

/-- Embedding of `PixelDataSliceInfo::validate`: the error checks in source
order, then the `bits_stored`/`high_bit` coercions (returned in the updated
record, standing for the `&mut self` mutation). -/
def PixelDataSliceInfo.validate (i : PixelDataSliceInfo) :
    Except PixelDataError PixelDataSliceInfo :=
  if i.pd_bytes.isEmpty then .error .MissingPixelData
  else if i.cols = 0 ∨ i.rows = 0 then .error (.InvalidSize i.cols i.rows)
  else if i.vr ≠ VR.OB ∧ i.vr ≠ VR.OW then .error (.InvalidVR i.vr)
  else
    match i.bits_alloc with
    | .Unsupported val => .error (.InvalidBitsAlloc val)
    | _ =>
      let bits_stored :=
        if i.bits_stored > i.bits_alloc.val ∨ i.bits_stored = 0 then
          i.bits_alloc.val
        else i.bits_stored
      let high_bit :=
        if i.high_bit > i.bits_alloc.val - 1 ∨ i.high_bit < bits_stored - 1 then
          bits_stored - 1
        else i.high_bit
      let i := { i with bits_stored := bits_stored, high_bit := high_bit }
      let photo_bad : Option (PhotoInterp × Nat) :=
        match i.photo_interp with
        | some pi =>
          if (pi.is_rgb && i.samples_per_pixel != 3) ||
             (pi.is_monochrome && i.samples_per_pixel != 1) then
            some (pi, i.samples_per_pixel)
          else none
        | none => none
      match photo_bad with
      | some (pi, samples) => .error (.InvalidPhotoInterpSamples pi samples)
      | none =>
        if !VolDims.is_valid_dim i.slice_thickness &&
           !VolDims.is_valid_dim i.spacing_between_slices then
          .error (.InvalidDims "SliceThickness and SpacingBetweenSlices are both invalid")
        else if !VolDims.is_valid_dim i.pixel_spacing.1 ||
                !VolDims.is_valid_dim i.pixel_spacing.2 then
          .error (.InvalidDims "PixelSpacing is invalid")
        else .ok i

/-! ## Theorems for claim C4 -/

/-- Whether a `BitsAlloc` is the `Unsupported` variant. -/
def BitsAlloc.isUnsupported : BitsAlloc → Bool
  | .Unsupported _ => true
  | _ => false

/-- Error kinds, used to compare `validate` against the claim's
classification independently of the formatted message payloads. -/
inductive PdErrorKind where
  | missingPixelData : PdErrorKind
  | invalidSize : PdErrorKind
  | invalidVRKind : PdErrorKind
  | invalidBitsAlloc : PdErrorKind
  | invalidPhotoInterpSamples : PdErrorKind
  | invalidDims : PdErrorKind
  | otherKind : PdErrorKind
deriving DecidableEq

/-- The kind of a `PixelDataError`. -/
def PixelDataError.kind : PixelDataError → PdErrorKind
  | .MissingPixelData => .missingPixelData
  | .InvalidSize _ _ => .invalidSize
  | .InvalidVR _ => .invalidVRKind
  | .InvalidBitsAlloc _ => .invalidBitsAlloc
  | .InvalidPhotoInterpSamples _ _ => .invalidPhotoInterpSamples
  | .InvalidDims _ => .invalidDims
  | _ => .otherKind

/-- The error kind of a `validate` outcome (`none` for `Ok`). -/
def validateResultKind (r : Except PixelDataError PixelDataSliceInfo) :
    Option PdErrorKind :=
  match r with
  | .ok _ => none
  | .error e => some e.kind

/-- The classification of `validate` asserted by the claim, amended: the
conditions are tested in the listed order (an earlier failure masks later
ones) and, in addition to the claim's six conditions, `InvalidDims` is also
returned when either PixelSpacing component is not positive. -/
def validate_claimed_kind (i : PixelDataSliceInfo) : Option PdErrorKind :=
  if i.pd_bytes = [] then some .missingPixelData
  else if i.cols = 0 ∨ i.rows = 0 then some .invalidSize
  else if ¬ (i.vr = VR.OB ∨ i.vr = VR.OW) then some .invalidVRKind
  else if i.bits_alloc.isUnsupported then some .invalidBitsAlloc
  else if (i.photo_interp = some PhotoInterp.Rgb ∧ i.samples_per_pixel ≠ 3) ∨
          ((i.photo_interp = some PhotoInterp.Monochrome1 ∨
            i.photo_interp = some PhotoInterp.Monochrome2) ∧
           i.samples_per_pixel ≠ 1) then
    some .invalidPhotoInterpSamples
  else if ¬ (0 < i.slice_thickness) ∧ ¬ (0 < i.spacing_between_slices) then
    some .invalidDims
  else if ¬ (0 < i.pixel_spacing.1) ∨ ¬ (0 < i.pixel_spacing.2) then
    some .invalidDims
  else none

/-- The claim phrases the `InvalidBitsAlloc` condition on the raw attribute
value: `BitsAlloc::from_val` yields `Unsupported` exactly when BitsAllocated
is not 8, 16 or 32. -/
theorem bits_alloc_unsupported_iff (v : Nat) :
    (BitsAlloc.from_val v).isUnsupported = true ↔ ¬ (v = 8 ∨ v = 16 ∨ v = 32) := by
  unfold BitsAlloc.from_val
  split_ifs <;> simp_all [BitsAlloc.isUnsupported]

/-- The dims checks at the tail of `validate` classify as the claim does. -/
theorem validate_dims_kinds (i : PixelDataSliceInfo) :
    validateResultKind
      (if !VolDims.is_valid_dim i.slice_thickness &&
          !VolDims.is_valid_dim i.spacing_between_slices then
        .error (.InvalidDims "SliceThickness and SpacingBetweenSlices are both invalid")
      else if !VolDims.is_valid_dim i.pixel_spacing.1 ||
              !VolDims.is_valid_dim i.pixel_spacing.2 then
        .error (.InvalidDims "PixelSpacing is invalid")
      else .ok i) =
    (if ¬ (0 < i.slice_thickness) ∧ ¬ (0 < i.spacing_between_slices) then
      some PdErrorKind.invalidDims
    else if ¬ (0 < i.pixel_spacing.1) ∨ ¬ (0 < i.pixel_spacing.2) then
      some PdErrorKind.invalidDims
    else none) := by
  by_cases h1 : ¬ (0 < i.slice_thickness) ∧ ¬ (0 < i.spacing_between_slices)
  · have hc : (!VolDims.is_valid_dim i.slice_thickness &&
        !VolDims.is_valid_dim i.spacing_between_slices) = true := by
      simp [VolDims.is_valid_dim, h1.1, h1.2]
    rw [if_pos hc, if_pos h1]
    rfl
  · have hc : ¬ ((!VolDims.is_valid_dim i.slice_thickness &&
        !VolDims.is_valid_dim i.spacing_between_slices) = true) := by
      simp only [VolDims.is_valid_dim, Bool.and_eq_true, Bool.not_eq_true',
        decide_eq_false_iff_not]
      tauto
    rw [if_neg hc, if_neg h1]
    by_cases h2 : ¬ (0 < i.pixel_spacing.1) ∨ ¬ (0 < i.pixel_spacing.2)
    · have hc2 : (!VolDims.is_valid_dim i.pixel_spacing.1 ||
          !VolDims.is_valid_dim i.pixel_spacing.2) = true := by
        simp only [VolDims.is_valid_dim, Bool.or_eq_true, Bool.not_eq_true',
          decide_eq_false_iff_not]
        tauto
      rw [if_pos hc2, if_pos h2]
      rfl
    · have hc2 : ¬ ((!VolDims.is_valid_dim i.pixel_spacing.1 ||
          !VolDims.is_valid_dim i.pixel_spacing.2) = true) := by
        simp only [VolDims.is_valid_dim, Bool.or_eq_true, Bool.not_eq_true',
          decide_eq_false_iff_not]
        tauto
      rw [if_neg hc2, if_neg h2]
      rfl

/-- The photometric-interpretation and dims checks at the tail of
`validate` classify as the claim does. -/
theorem validate_photo_dims_kinds (j : PixelDataSliceInfo) :
    validateResultKind
      (match (match j.photo_interp with
              | some pi =>
                if (pi.is_rgb && j.samples_per_pixel != 3) ||
                   (pi.is_monochrome && j.samples_per_pixel != 1) then
                  some (pi, j.samples_per_pixel)
                else none
              | none => none) with
       | some (pi, samples) => .error (.InvalidPhotoInterpSamples pi samples)
       | none =>
         if !VolDims.is_valid_dim j.slice_thickness &&
            !VolDims.is_valid_dim j.spacing_between_slices then
           .error (.InvalidDims "SliceThickness and SpacingBetweenSlices are both invalid")
         else if !VolDims.is_valid_dim j.pixel_spacing.1 ||
                 !VolDims.is_valid_dim j.pixel_spacing.2 then
           .error (.InvalidDims "PixelSpacing is invalid")
         else .ok j) =
    (if (j.photo_interp = some PhotoInterp.Rgb ∧ j.samples_per_pixel ≠ 3) ∨
        ((j.photo_interp = some PhotoInterp.Monochrome1 ∨
          j.photo_interp = some PhotoInterp.Monochrome2) ∧
         j.samples_per_pixel ≠ 1) then
      some PdErrorKind.invalidPhotoInterpSamples
    else if ¬ (0 < j.slice_thickness) ∧ ¬ (0 < j.spacing_between_slices) then
      some PdErrorKind.invalidDims
    else if ¬ (0 < j.pixel_spacing.1) ∨ ¬ (0 < j.pixel_spacing.2) then
      some PdErrorKind.invalidDims
    else none) := by
  cases hpi : j.photo_interp with
  | none =>
    have hc : ¬ ((none : Option PhotoInterp) = some PhotoInterp.Rgb ∧
        j.samples_per_pixel ≠ 3 ∨
        ((none : Option PhotoInterp) = some PhotoInterp.Monochrome1 ∨
         (none : Option PhotoInterp) = some PhotoInterp.Monochrome2) ∧
        j.samples_per_pixel ≠ 1) := by simp
    rw [if_neg hc]
    exact validate_dims_kinds j
  | some pi =>
    cases pi with
    | Unsupported s =>
      have hc : ¬ (some (PhotoInterp.Unsupported s) = some PhotoInterp.Rgb ∧
          j.samples_per_pixel ≠ 3 ∨
          (some (PhotoInterp.Unsupported s) = some PhotoInterp.Monochrome1 ∨
           some (PhotoInterp.Unsupported s) = some PhotoInterp.Monochrome2) ∧
          j.samples_per_pixel ≠ 1) := by simp
      rw [if_neg hc]
      exact validate_dims_kinds j
    | Rgb =>
      by_cases hs : j.samples_per_pixel = 3
      · have hc : ¬ (some PhotoInterp.Rgb = some PhotoInterp.Rgb ∧
            j.samples_per_pixel ≠ 3 ∨
            (some PhotoInterp.Rgb = some PhotoInterp.Monochrome1 ∨
             some PhotoInterp.Rgb = some PhotoInterp.Monochrome2) ∧
            j.samples_per_pixel ≠ 1) := by simp [hs]
        rw [if_neg hc]
        simp only [hs]
        exact validate_dims_kinds j
      · rw [if_pos (Or.inl ⟨rfl, hs⟩)]
        have hb : (j.samples_per_pixel != 3) = true := by simp [hs]
        simp [PhotoInterp.is_rgb, PhotoInterp.is_monochrome, hb,
          validateResultKind, PixelDataError.kind]
    | Monochrome1 =>
      by_cases hs : j.samples_per_pixel = 1
      · have hc : ¬ (some PhotoInterp.Monochrome1 = some PhotoInterp.Rgb ∧
            j.samples_per_pixel ≠ 3 ∨
            (some PhotoInterp.Monochrome1 = some PhotoInterp.Monochrome1 ∨
             some PhotoInterp.Monochrome1 = some PhotoInterp.Monochrome2) ∧
            j.samples_per_pixel ≠ 1) := by simp [hs]
        rw [if_neg hc]
        simp only [hs]
        exact validate_dims_kinds j
      · rw [if_pos (Or.inr ⟨Or.inl rfl, hs⟩)]
        have hb : (j.samples_per_pixel != 1) = true := by simp [hs]
        simp [PhotoInterp.is_rgb, PhotoInterp.is_monochrome, hb,
          validateResultKind, PixelDataError.kind]
    | Monochrome2 =>
      by_cases hs : j.samples_per_pixel = 1
      · have hc : ¬ (some PhotoInterp.Monochrome2 = some PhotoInterp.Rgb ∧
            j.samples_per_pixel ≠ 3 ∨
            (some PhotoInterp.Monochrome2 = some PhotoInterp.Monochrome1 ∨
             some PhotoInterp.Monochrome2 = some PhotoInterp.Monochrome2) ∧
            j.samples_per_pixel ≠ 1) := by simp [hs]
        rw [if_neg hc]
        simp only [hs]
        exact validate_dims_kinds j
      · rw [if_pos (Or.inr ⟨Or.inr rfl, hs⟩)]
        have hb : (j.samples_per_pixel != 1) = true := by simp [hs]
        simp [PhotoInterp.is_rgb, PhotoInterp.is_monochrome, hb,
          validateResultKind, PixelDataError.kind]

/-- C4 (amended): the error kind of `PixelDataSliceInfo::validate` matches
the claim's classification: `MissingPixelData` for empty PixelData bytes,
then `InvalidSize` for zero rows or columns, then `InvalidVR` for a VR other
than OB/OW, then `InvalidBitsAlloc` for unsupported BitsAllocated, then
`InvalidPhotoInterpSamples` for an RGB/MONOCHROME samples-per-pixel
mismatch, then `InvalidDims` when neither SliceThickness nor
SpacingBetweenSlices is positive and also when either PixelSpacing component
is not positive; otherwise `Ok`. -/
theorem validate_error_kinds (i : PixelDataSliceInfo) :
    validateResultKind i.validate = validate_claimed_kind i := by
  unfold PixelDataSliceInfo.validate validate_claimed_kind
  by_cases h1 : i.pd_bytes = []
  · rw [if_pos (by simpa [List.isEmpty_iff] using h1), if_pos h1]
    rfl
  · rw [if_neg (by simpa [List.isEmpty_iff] using h1), if_neg h1]
    by_cases h2 : i.cols = 0 ∨ i.rows = 0
    · rw [if_pos h2, if_pos h2]
      rfl
    · rw [if_neg h2, if_neg h2]
      by_cases h3 : i.vr = VR.OB ∨ i.vr = VR.OW
      · rw [if_neg (by tauto : ¬ (i.vr ≠ VR.OB ∧ i.vr ≠ VR.OW)),
          if_neg (not_not_intro h3)]
        cases hba : i.bits_alloc with
        | Unsupported v => simp [BitsAlloc.isUnsupported, validateResultKind,
            PixelDataError.kind]
        | Eight =>
          have hcu : ¬ (BitsAlloc.Eight.isUnsupported = true) := by
            simp [BitsAlloc.isUnsupported]
          rw [if_neg hcu]
          exact validate_photo_dims_kinds _
        | Sixteen =>
          have hcu : ¬ (BitsAlloc.Sixteen.isUnsupported = true) := by
            simp [BitsAlloc.isUnsupported]
          rw [if_neg hcu]
          exact validate_photo_dims_kinds _
        | ThirtyTwo =>
          have hcu : ¬ (BitsAlloc.ThirtyTwo.isUnsupported = true) := by
            simp [BitsAlloc.isUnsupported]
          rw [if_neg hcu]
          exact validate_photo_dims_kinds _
      · rw [if_pos (by tauto : i.vr ≠ VR.OB ∧ i.vr ≠ VR.OW), if_pos h3]
        rfl

/-- A slice info satisfying every validation condition listed by the claim
(non-empty PixelData, 1x1, VR OB, 8 bits allocated, no photometric
interpretation, positive SliceThickness) but with PixelSpacing `(0, 0)`. -/
def exInfoC4 : PixelDataSliceInfo where
  sop_uid := "1.2.3.4"
  big_endian := false
  vr := VR.OB
  slice_thickness := 1
  spacing_between_slices := 0
  samples_per_pixel := 1
  photo_interp := none
  planar_config := 0
  num_frames := 1
  cols := 1
  rows := 1
  pixel_spacing := (0, 0)
  pixel_pad := none
  bits_alloc := BitsAlloc.Eight
  bits_stored := 8
  high_bit := 7
  pixel_rep := 0
  slope := none
  intercept := none
  unit := ""
  patient_pos := ""
  image_pos := ⟨0, 0, 0⟩
  min_val := 0
  max_val := 0
  win_levels := []
  pd_bytes := [1]
  vol_dims_geom :=
    { origin_x := 0, origin_y := 0, origin_z := 0,
      counts := ⟨1, 1, 1⟩, vox_dims := ⟨0, 0, 1⟩ }

/-- C4 (counterexample): at `exInfoC4`, every validation condition named by
the claim passes (so the claim asserts `validate` returns `Ok`), yet the
source `validate` returns `InvalidDims` because of the PixelSpacing check
the claim omits. -/
theorem validate_claim_counterexample :
    exInfoC4.pd_bytes ≠ [] ∧
    ¬ (exInfoC4.cols = 0 ∨ exInfoC4.rows = 0) ∧
    (exInfoC4.vr = VR.OB ∨ exInfoC4.vr = VR.OW) ∧
    exInfoC4.bits_alloc.isUnsupported = false ∧
    exInfoC4.photo_interp = none ∧
    0 < exInfoC4.slice_thickness ∧
    exInfoC4.validate = .error (.InvalidDims "PixelSpacing is invalid") := by
  refine ⟨by decide, by decide, by decide, by decide, by decide, by decide, by rfl⟩

/-! ## 16-bit monochrome decoding — `load/pixeldata/pixel_i16.rs` -/

/-- Assemble the 16-bit word at byte offset `pos` (`u16::from_be_bytes` /
`u16::from_le_bytes` after taking the two-byte slice); `none` when fewer
than two bytes remain (the source would fail its slice/`try_into` there). -/
def word16At (bigEndian : Bool) (bytes : List Nat) (pos : Nat) : Option Nat :=
  match bytes.get? pos, bytes.get? (pos + 1) with
  | some b0, some b1 => some (if bigEndian then 256 * b0 + b1 else 256 * b1 + b0)
  | _, _ => none

/-- One sample of `from_mono_16bit`: signed data is reinterpreted two's
complement (`i16::from_??_bytes`), unsigned data is clamped to `i16::MAX`
(`.min(i16::MAX as u16) as i16`); the word is read with the transfer
syntax's endianness. -/
def mono16Sample (bigEndian signed : Bool) (bytes : List Nat) (pos : Nat) :
    Option Int :=
  if bigEndian then
    if signed then (word16At true bytes pos).map toI16
    else (word16At true bytes pos).map (fun w => ((min w 32767 : Nat) : Int))
  else
    if signed then (word16At false bytes pos).map toI16
    else (word16At false bytes pos).map (fun w => ((min w 32767 : Nat) : Int))

/-- The `pixel_pad.is_none_or(|pad_val| val != pad_val)` guard of the
min/max update. -/
def padKeep (pad : Option Int) (val : Int) : Bool :=
  match pad with
  | none => true
  | some p => val != p

/-- State of the decoding loop of `from_mono_16bit`. -/
structure Mono16Acc where
  in_pos : Nat
  buffer : List Int
  mn : Int
  mx : Int
deriving DecidableEq

/-- One iteration of the inner loop body of `from_mono_16bit`: read a
sample, push it, and fold it into min/max unless it equals the pixel-pad
sentinel. -/
def mono16Body (bigEndian signed : Bool) (pad : Option Int) (bytes : List Nat)
    (acc : Mono16Acc) : Except PixelDataError Mono16Acc :=
  match mono16Sample bigEndian signed bytes acc.in_pos with
  | none => .error .BytesError
  | some val =>
    .ok { in_pos := acc.in_pos + 2
        , buffer := acc.buffer ++ [val]
        , mn := if padKeep pad val then min acc.mn val else acc.mn
        , mx := if padKeep pad val then max acc.mx val else acc.mx }

/-- The `for _i in 0..len { for _j in 0..samples { .. } }` nest of
`from_mono_16bit` executes the body `len * samples` times in order; it is
modelled as that flat iteration. -/
def mono16Iter (bigEndian signed : Bool) (pad : Option Int) (bytes : List Nat) :
    Nat → Mono16Acc → Except PixelDataError Mono16Acc
  | 0, acc => .ok acc
  | n + 1, acc =>
    match mono16Body bigEndian signed pad bytes acc with
    | .error e => .error e
    | .ok acc1 => mono16Iter bigEndian signed pad bytes n acc1

/-- Embedding of `PixelDataSliceI16::from_mono_16bit` composed with
`into_buffer` (the pair of the updated info and the decoded `i16` buffer,
which is how `ImageVolume::load_pixel_data` consumes it).  `take_bytes`
empties `pd_bytes`; after the loop the min/max are recorded, every existing
window/level gets the `i16` output range, and a "Min/Max" window/level is
appended unless one with the same center/width (within 0.01) exists. -/
def PixelDataSliceI16.from_mono_16bit (pdinfo : PixelDataSliceInfo) :
    Except PixelDataError (PixelDataSliceInfo × List Int) :=
  let num_frames : Nat :=
    if 0 ≤ pdinfo.num_frames then pdinfo.num_frames.toNat else 1
  let samples := pdinfo.samples_per_pixel
  let len := pdinfo.cols * pdinfo.rows * num_frames
  let pixel_pad := pdinfo.pixel_pad.bind u16TryIntoI16
  let bytes := pdinfo.pd_bytes
  let pdinfo := { pdinfo with pd_bytes := [] }
  match mono16Iter pdinfo.big_endian pdinfo.is_signed pixel_pad bytes
      (len * samples) ⟨0, [], 32767, -32768⟩ with
  | .error e => .error e
  | .ok acc =>
    let pdinfo := { pdinfo with min_val := (acc.mn : ℚ), max_val := (acc.mx : ℚ) }
    let minmax_width : ℚ := ratSub (acc.mx : ℚ) (acc.mn : ℚ)
    let minmax_center : ℚ := ratAdd (acc.mn : ℚ) (ratDiv minmax_width 2)
    let updated := pdinfo.win_levels.map
      (fun wl => { wl with out_min := (-32768 : ℚ), out_max := (32767 : ℚ) })
    let already_has_minmax := updated.any (fun wl =>
      decide (ratAbs (ratSub wl.width minmax_width) < mkRat 1 100) &&
      decide (ratAbs (ratSub wl.center minmax_center) < mkRat 1 100))
    let win_levels :=
      if already_has_minmax then updated
      else updated ++
        [⟨"Min/Max", minmax_center, minmax_width, (-32768 : ℚ), (32767 : ℚ)⟩]
    let pdinfo := { pdinfo with win_levels := win_levels }
    .ok (pdinfo, acc.buffer)

/-! ### Claim-side description of the mono-16 decode (C6) -/

/-- Claim-side: the `k`-th sample is the 16-bit word at byte offset `2k`,
read with the transfer syntax's endianness, taken directly when the data is
signed and clamped to `i16::MAX` when unsigned. -/
def mono16SampleSpec (bigEndian signed : Bool) (bytes : List Nat) (k : Nat) :
    Option Int :=
  (word16At bigEndian bytes (2 * k)).map
    (fun w => if signed then toI16 w else ((min w 32767 : Nat) : Int))

/-- Claim-side: the samples `k, k+1, .., k+n-1`. -/
def mono16SamplesSpec (bigEndian signed : Bool) (bytes : List Nat) :
    Nat → Nat → Option (List Int)
  | _, 0 => some []
  | k, n + 1 =>
    match mono16SampleSpec bigEndian signed bytes k with
    | none => none
    | some v => (mono16SamplesSpec bigEndian signed bytes (k + 1) n).map (v :: ·)

/-- Claim-side: a sample contributes to min/max exactly when it differs (as
a value) from the raw PixelPaddingValue. -/
def padKeepSpec (pad : Option Nat) (v : Int) : Bool :=
  match pad with
  | none => true
  | some p => v != (p : Int)

/-- Claim-side: drop every sample equal (as a value) to the raw
PixelPaddingValue. -/
def padFilterSpec (pad : Option Nat) (vs : List Int) : List Int :=
  vs.filter (padKeepSpec pad)

/-- The loop reads each sample at consecutive even byte offsets: at byte
position `2k` the body's sample is the claim's `k`-th sample. -/
theorem mono16Sample_eq_spec (bigEndian signed : Bool) (bytes : List Nat)
    (k : Nat) :
    mono16Sample bigEndian signed bytes (2 * k) =
      mono16SampleSpec bigEndian signed bytes k := by
  cases bigEndian <;> cases signed <;>
    simp [mono16Sample, mono16SampleSpec]

/-- Invariant of the decoding loop: a successful run from byte position
`2k` for `n` iterations decodes exactly the claim's samples `k..k+n-1`,
appends them to the buffer in order, and folds min/max over the samples
that pass the pixel-pad guard. -/
theorem mono16Iter_ok (bigEndian signed : Bool) (pad : Option Int)
    (bytes : List Nat) :
    ∀ (n k : Nat) (acc accF : Mono16Acc),
      acc.in_pos = 2 * k →
      mono16Iter bigEndian signed pad bytes n acc = .ok accF →
      ∃ vs : List Int,
        mono16SamplesSpec bigEndian signed bytes k n = some vs ∧
        accF.in_pos = 2 * (k + n) ∧
        accF.buffer = acc.buffer ++ vs ∧
        accF.mn = (vs.filter (padKeep pad)).foldl min acc.mn ∧
        accF.mx = (vs.filter (padKeep pad)).foldl max acc.mx := by
  intro n
  induction n with
  | zero =>
    intro k acc accF hpos h
    simp only [mono16Iter, Except.ok.injEq] at h
    subst h
    exact ⟨[], rfl, by omega, by simp, rfl, rfl⟩
  | succ n ih =>
    intro k acc accF hpos h
    simp only [mono16Iter] at h
    cases hbody : mono16Body bigEndian signed pad bytes acc with
    | error e => rw [hbody] at h; cases h
    | ok acc1 =>
      rw [hbody] at h
      cases hs : mono16Sample bigEndian signed bytes acc.in_pos with
      | none =>
        simp only [mono16Body, hs] at hbody
        cases hbody
      | some v =>
        simp only [mono16Body, hs, Except.ok.injEq] at hbody
        have hpos1 : acc1.in_pos = 2 * (k + 1) := by
          rw [← hbody]; simp; omega
        obtain ⟨vs, hspec, hpos2, hbuf, hmn, hmx⟩ := ih (k + 1) acc1 accF hpos1 h
        refine ⟨v :: vs, ?_, by omega, ?_, ?_, ?_⟩
        · have hsk : mono16SampleSpec bigEndian signed bytes k = some v := by
            rw [← mono16Sample_eq_spec, ← hpos, hs]
          simp [mono16SamplesSpec, hsk, hspec]
        · rw [hbuf, ← hbody]
          simp
        · rw [hmn, ← hbody]
          cases hkeep : padKeep pad v <;> simp [hkeep]
        · rw [hmx, ← hbody]
          cases hkeep : padKeep pad v <;> simp [hkeep]

/-- The claim-side sample list has one entry per index, each given by
`mono16SampleSpec`. -/
theorem mono16SamplesSpec_get (bigEndian signed : Bool) (bytes : List Nat) :
    ∀ (n k : Nat) (vs : List Int),
      mono16SamplesSpec bigEndian signed bytes k n = some vs →
      vs.length = n ∧
      ∀ j, j < n → vs.get? j = mono16SampleSpec bigEndian signed bytes (k + j) := by
  intro n
  induction n with
  | zero =>
    intro k vs h
    simp only [mono16SamplesSpec, Option.some.injEq] at h
    subst h
    exact ⟨rfl, fun j hj => absurd hj (by omega)⟩
  | succ n ih =>
    intro k vs h
    simp only [mono16SamplesSpec] at h
    cases hs : mono16SampleSpec bigEndian signed bytes k with
    | none => rw [hs] at h; cases h
    | some v =>
      rw [hs] at h
      cases hrest : mono16SamplesSpec bigEndian signed bytes (k + 1) n with
      | none => rw [hrest] at h; cases h
      | some vs1 =>
        rw [hrest] at h
        simp only [Option.map, Option.some.injEq] at h
        subst h
        obtain ⟨hlen, hget⟩ := ih (k + 1) vs1 hrest
        refine ⟨by simp [hlen], ?_⟩
        intro j hj
        cases j with
        | zero => simpa using hs.symm
        | succ j =>
          have := hget j (by omega)
          simpa [Nat.add_assoc, Nat.add_comm 1 j] using this

/-- A word assembled from in-range bytes is below `2^16`. -/
theorem word16At_lt (bigEndian : Bool) (bytes : List Nat) (pos : Nat) (w : Nat)
    (hb : ∀ b ∈ bytes, b < 256) (h : word16At bigEndian bytes pos = some w) :
    w < 65536 := by
  unfold word16At at h
  cases h0 : bytes.get? pos with
  | none => rw [h0] at h; cases h
  | some b0 =>
    cases h1 : bytes.get? (pos + 1) with
    | none => rw [h0, h1] at h; cases h
    | some b1 =>
      rw [h0, h1] at h
      simp only [Option.some.injEq] at h
      have hb0 : b0 < 256 := hb b0 (List.get?_mem h0)
      have hb1 : b1 < 256 := hb b1 (List.get?_mem h1)
      cases bigEndian <;> simp at h <;> omega

/-- Every decoded sample is at most `i16::MAX`. -/
theorem mono16SampleSpec_le (bigEndian signed : Bool) (bytes : List Nat)
    (hb : ∀ b ∈ bytes, b < 256) (k : Nat) (v : Int)
    (h : mono16SampleSpec bigEndian signed bytes k = some v) : v ≤ 32767 := by
  unfold mono16SampleSpec at h
  cases hw : word16At bigEndian bytes (2 * k) with
  | none => rw [hw] at h; cases h
  | some w =>
    rw [hw] at h
    simp only [Option.map, Option.some.injEq] at h
    have hlt : w < 65536 := word16At_lt bigEndian bytes (2 * k) w hb hw
    cases signed with
    | true =>
      simp at h
      rw [← h]
      unfold toI16
      split <;> omega
    | false =>
      simp at h
      omega

/-- Every sample in a decoded sample list is at most `i16::MAX`. -/
theorem mono16SamplesSpec_le (bigEndian signed : Bool) (bytes : List Nat)
    (hb : ∀ b ∈ bytes, b < 256) :
    ∀ (n k : Nat) (vs : List Int),
      mono16SamplesSpec bigEndian signed bytes k n = some vs →
      ∀ v ∈ vs, v ≤ 32767 := by
  intro n
  induction n with
  | zero =>
    intro k vs h v hv
    simp only [mono16SamplesSpec, Option.some.injEq] at h
    subst h
    cases hv
  | succ n ih =>
    intro k vs h v hv
    simp only [mono16SamplesSpec] at h
    cases hs : mono16SampleSpec bigEndian signed bytes k with
    | none => rw [hs] at h; cases h
    | some v0 =>
      rw [hs] at h
      cases hrest : mono16SamplesSpec bigEndian signed bytes (k + 1) n with
      | none => rw [hrest] at h; cases h
      | some vs1 =>
        rw [hrest] at h
        simp only [Option.map, Option.some.injEq] at h
        subst h
        rcases List.mem_cons.mp hv with hv0 | hv1
        · rw [hv0]
          exact mono16SampleSpec_le bigEndian signed bytes hb k v0 hs
        · exact ih (k + 1) vs1 hrest v hv1

/-- On sample values within the `i16` range, the code's pixel-pad guard
(`try_into` conversion of the pad) agrees with the claim's value-equality
filter. -/
theorem padFilter_agrees (pad : Option Nat) (vs : List Int)
    (hvs : ∀ v ∈ vs, v ≤ 32767) :
    vs.filter (padKeep (pad.bind u16TryIntoI16)) = padFilterSpec pad vs := by
  induction vs with
  | nil => rfl
  | cons v vs ih =>
    have hv : v ≤ 32767 := hvs v (by simp)
    have ihv := ih (fun w hw => hvs w (by simp [hw]))
    have hhead : padKeep (pad.bind u16TryIntoI16) v = padKeepSpec pad v := by
      cases pad with
      | none => rfl
      | some p =>
        by_cases hp : p ≤ 32767
        · simp [u16TryIntoI16, hp, padKeep, padKeepSpec]
        · have hne : (v != (p : Int)) = true := by
            simp only [bne_iff_ne, ne_eq]
            intro hcon
            rw [hcon] at hv
            exact hp (by exact_mod_cast hv)
          simp [u16TryIntoI16, hp, padKeep, padKeepSpec, hne]
    simp only [padFilterSpec] at ihv ⊢
    rw [List.filter_cons, List.filter_cons, hhead, ihv]

/-- C6: whenever `from_mono_16bit` succeeds, (a) its buffer is exactly the
claim's sample sequence: the `j`-th sample is the 16-bit word at byte
offset `2j` read with the transfer syntax's endianness, taken directly when
`PixelRepresentation != 0` and clamped to at most `i16::MAX` when unsigned;
and (b) the recorded per-slice min/max are the fold of min/max over the
samples with every sample equal to the PixelPaddingValue excluded. -/
theorem mono16_decode_spec (info : PixelDataSliceInfo)
    (out : PixelDataSliceInfo × List Int)
    (hok : PixelDataSliceI16.from_mono_16bit info = .ok out)
    (hb : ∀ b ∈ info.pd_bytes, b < 256) :
    mono16SamplesSpec info.big_endian info.is_signed info.pd_bytes 0
        (info.cols * info.rows *
          (if 0 ≤ info.num_frames then info.num_frames.toNat else 1) *
          info.samples_per_pixel) = some out.2 ∧
    (∀ j, j < info.cols * info.rows *
          (if 0 ≤ info.num_frames then info.num_frames.toNat else 1) *
          info.samples_per_pixel →
        out.2.get? j =
          mono16SampleSpec info.big_endian info.is_signed info.pd_bytes j) ∧
    out.1.min_val =
      (((padFilterSpec info.pixel_pad out.2).foldl min 32767 : Int) : ℚ) ∧
    out.1.max_val =
      (((padFilterSpec info.pixel_pad out.2).foldl max (-32768) : Int) : ℚ) := by
  simp only [PixelDataSliceI16.from_mono_16bit] at hok
  split at hok
  · cases hok
  · rename_i acc hiter
    obtain ⟨vs, hspec, _, hbuf, hmn, hmx⟩ :=
      mono16Iter_ok _ _ _ _ _ 0 ⟨0, [], 32767, -32768⟩ acc rfl hiter
    simp only [List.nil_append] at hbuf
    injection hok with hpair
    have hout2 : out.2 = acc.buffer := by
      rw [← hpair]
    have hspec0 : mono16SamplesSpec info.big_endian info.is_signed info.pd_bytes 0
        (info.cols * info.rows *
          (if 0 ≤ info.num_frames then info.num_frames.toNat else 1) *
          info.samples_per_pixel) = some out.2 := by
      rw [hout2, hbuf]
      exact hspec
    have hle : ∀ v ∈ vs, v ≤ 32767 :=
      mono16SamplesSpec_le info.big_endian info.is_signed info.pd_bytes hb _ _ vs hspec
    have hfilter := padFilter_agrees info.pixel_pad vs hle
    refine ⟨hspec0, ?_, ?_, ?_⟩
    · intro j hj
      obtain ⟨hlen, hget⟩ :=
        mono16SamplesSpec_get info.big_endian info.is_signed info.pd_bytes _ 0 vs hspec
      rw [hout2, hbuf]
      simpa using hget j hj
    · have hm1 : out.1.min_val = (acc.mn : ℚ) := by
        rw [← hpair]
      rw [hm1, hmn, hout2, hbuf, ← hfilter]
    · have hm1 : out.1.max_val = (acc.mx : ℚ) := by
        rw [← hpair]
      rw [hm1, hmx, hout2, hbuf, ← hfilter]

/-- The spec's 16-bit monochrome boundary scenario: BitsAllocated=16,
BitsStored=12, PixelRepresentation=1 (signed), Rows=1, Cols=2,
PixelPaddingValue=0x0800, little-endian PixelData bytes `00 08 FF 0F`. -/
def exInfoC6 : PixelDataSliceInfo where
  sop_uid := "1.2.3.6"
  big_endian := false
  vr := VR.OW
  slice_thickness := 1
  spacing_between_slices := 0
  samples_per_pixel := 1
  photo_interp := some PhotoInterp.Monochrome2
  planar_config := 0
  num_frames := 1
  cols := 2
  rows := 1
  pixel_spacing := (1, 1)
  pixel_pad := some 2048
  bits_alloc := BitsAlloc.Sixteen
  bits_stored := 12
  high_bit := 11
  pixel_rep := 1
  slope := none
  intercept := none
  unit := ""
  patient_pos := ""
  image_pos := ⟨0, 0, 0⟩
  min_val := 0
  max_val := 0
  win_levels := []
  pd_bytes := [0x00, 0x08, 0xFF, 0x0F]
  vol_dims_geom :=
    { origin_x := 0, origin_y := 0, origin_z := 0,
      counts := ⟨2, 1, 1⟩, vox_dims := ⟨1, 1, 1⟩ }

/-- The decode result of the boundary scenario. -/
def exOutC6 : PixelDataSliceInfo × List Int :=
  match PixelDataSliceI16.from_mono_16bit exInfoC6 with
  | .ok o => o
  | .error _ => (exInfoC6, [])

/-- C6 (witness): on the boundary scenario the decode succeeds with buffer
`[0x0800, 0x0FFF]`, the recorded min and max are both `0x0FFF = 4095` (the
pad value `0x0800 = 2048` is excluded), and the general decode theorem
applies with its hypotheses discharged by computation. -/
theorem mono16_decode_spec_witness :
    PixelDataSliceI16.from_mono_16bit exInfoC6 = .ok exOutC6 ∧
    exOutC6.2 = [2048, 4095] ∧
    exOutC6.1.min_val = ((4095 : Int) : ℚ) ∧
    exOutC6.1.max_val = ((4095 : Int) : ℚ) ∧
    (mono16SamplesSpec exInfoC6.big_endian exInfoC6.is_signed exInfoC6.pd_bytes 0
        (exInfoC6.cols * exInfoC6.rows *
          (if 0 ≤ exInfoC6.num_frames then exInfoC6.num_frames.toNat else 1) *
          exInfoC6.samples_per_pixel) = some exOutC6.2 ∧
      (∀ j, j < exInfoC6.cols * exInfoC6.rows *
          (if 0 ≤ exInfoC6.num_frames then exInfoC6.num_frames.toNat else 1) *
          exInfoC6.samples_per_pixel →
        exOutC6.2.get? j =
          mono16SampleSpec exInfoC6.big_endian exInfoC6.is_signed exInfoC6.pd_bytes j) ∧
      exOutC6.1.min_val =
        (((padFilterSpec exInfoC6.pixel_pad exOutC6.2).foldl min 32767 : Int) : ℚ) ∧
      exOutC6.1.max_val =
        (((padFilterSpec exInfoC6.pixel_pad exOutC6.2).foldl max (-32768) : Int) : ℚ)) :=
  ⟨rfl, rfl, rfl, rfl,
    mono16_decode_spec exInfoC6 exOutC6 rfl (by decide)⟩

/-! ## Image volume — `load/imgvol.rs` -/

/-- Result of Rust `slice::binary_search_by`: `Ok(idx)` (here `found`) when
the comparator returns `Equal` at `idx`, `Err(idx)` (here `insertAt`) with
the insertion point otherwise. -/
inductive BsResult where
  | found (idx : Nat) : BsResult
  | insertAt (idx : Nat) : BsResult
deriving DecidableEq

/-- The loop of Rust `slice::binary_search_by` on `[left, right)`: probe
`mid = left + (right - left) / 2`; `Less` moves `left` past `mid`,
`Greater` moves `right` down to `mid`, `Equal` returns `Ok(mid)`.  The
`fuel` parameter only makes the recursion structural; with
`fuel > right - left` it never runs out (the interval shrinks every step),
and `binary_search_by` below supplies `length + 1`. -/
def binarySearchLoop {α : Type} (f : α → Ordering) (xs : List α) :
    Nat → Nat → Nat → BsResult
  | 0, left, _ => .insertAt left
  | fuel + 1, left, right =>
    if left < right then
      match xs.get? (left + (right - left) / 2) with
      | none => .insertAt left
      | some x =>
        match f x with
        | .lt => binarySearchLoop f xs fuel (left + (right - left) / 2 + 1) right
        | .gt => binarySearchLoop f xs fuel left (left + (right - left) / 2)
        | .eq => .found (left + (right - left) / 2)
    else .insertAt left

/-- Rust `slice::binary_search_by` over the whole slice. -/
def binary_search_by {α : Type} (f : α → Ordering) (xs : List α) : BsResult :=
  binarySearchLoop f xs (xs.length + 1) 0 xs.length

/-- Embedding of `VolAxis`. -/
inductive VolAxis where
  | X : VolAxis
  | Y : VolAxis
  | Z : VolAxis
deriving DecidableEq

/-- Embedding of `VolPixel`. -/
structure VolPixel where
  coord : Nat × Nat × Nat
  r : ℚ
  g : ℚ
  b : ℚ
deriving DecidableEq

/-- Embedding of `ImageVolume`. -/
structure ImageVolume where
  slices : List (List Int)
  infos : List PixelDataSliceInfo
  patient_name : String
  patient_id : String
  series_uid : String
  series_desc : String
  dims : VolDims
  stride : Nat
  is_rgb : Bool
  pixel_pad : Option Int
  slope : ℚ
  intercept : ℚ
  samples_per_pixel : Nat
  photo_interp : PhotoInterp
  min_val : Int
  max_val : Int

/-- Embedding of `<ImageVolume as Default>::default`. -/
def ImageVolume.default : ImageVolume where
  slices := []
  infos := []
  patient_name := ""
  patient_id := ""
  series_uid := ""
  series_desc := ""
  dims := { origin_x := 0, origin_y := 0, origin_z := 0
          , counts := ⟨0, 0, 0⟩, vox_dims := ⟨0, 0, 0⟩ }
  stride := 0
  is_rgb := false
  pixel_pad := none
  slope := 1
  intercept := 0
  samples_per_pixel := 0
  photo_interp := PhotoInterp.Unsupported "Unspecified"
  min_val := 32767
  max_val := -32768

/-- Embedding of `ImageVolume::rescale` (`val * self.slope +
self.intercept`). -/
def ImageVolume.rescale (v : ImageVolume) (val : ℚ) : ℚ :=
  ratAdd (ratMul val v.slope) v.intercept

/-- Embedding of `ImageVolume::cmp_by_zpos`: order slice infos by the
z-coordinate of ImagePositionPatient. -/
def ImageVolume.cmp_by_zpos (a b : PixelDataSliceInfo) : Ordering :=
  if a.image_pos.z < b.image_pos.z then .lt
  else if b.image_pos.z < a.image_pos.z then .gt
  else .eq

/-- The values `ImageVolume::load_slice` reads from its `DicomRoot`
argument: the SOP and series instance UIDs (fallible lookups), the first
PatientsName / PatientID string when present, the SeriesDescription, and
the `PixelDataSliceInfo` that `PixelDataSliceInfo::process` extracts from
the tree. -/
structure SliceSource where
  sop_instance_id : Except PixelDataError String
  series_instance_id : Except PixelDataError String
  patient_name : Option String
  patient_id : Option String
  series_desc : Option String
  pdinfo : PixelDataSliceInfo

/-- The tail of `ImageVolume::load_slice` after the consistency checks:
decode the pixel data, fold the slice's min/max into the volume, insert
sorted by `cmp_by_zpos` (`binary_search_by(|i| Self::cmp_by_zpos(seek, i))`,
`Err(loc)` inserts, `Ok(_)` is the duplicate-z rejection), and reset the
volume origin to the first slice's. -/
def ImageVolume.load_slice_insert
    (load_pixel_data :
      PixelDataSliceInfo → Except PixelDataError (PixelDataSliceInfo × List Int))
    (v : ImageVolume) (pdinfo : PixelDataSliceInfo) :
    ImageVolume × Except PixelDataError Unit :=
  match load_pixel_data pdinfo with
  | .error e => (v, .error e)
  | .ok loaded =>
    let v := { v with
      min_val := min v.min_val (ratAsI16 loaded.1.min_val),
      max_val := max v.max_val (ratAsI16 loaded.1.max_val) }
    match binary_search_by (fun i => ImageVolume.cmp_by_zpos loaded.1 i) v.infos with
    | .insertAt loc =>
      let v := { v with
        infos := v.infos.insertIdx loc loaded.1,
        slices := v.slices.insertIdx loc loaded.2 }
      let v :=
        match v.infos.head? with
        | some first_info =>
          { v with dims := v.dims.set_origin first_info.vol_dims.origin }
        | none => v
      (v, .ok ())
    | .found _ =>
      (v, .error (.InconsistentSliceFormat loaded.1.sop_uid
        "Multiple slices in the same z-pos"))

/-- Embedding of `ImageVolume::load_slice`.  The decoding dispatch
`ImageVolume::load_pixel_data` (six decoders selected on
BitsAllocated x RGB) is passed as the `load_pixel_data` parameter; the
concrete instances below use the 16-bit monochrome arm, which is modelled
in full (`PixelDataSliceI16.from_mono_16bit`).  Mutation order follows the
source: patient name/ID are updated before the consistency checks, and the
z-count is incremented as soon as the dimensions match, before the
stride/RGB/pad/slope/intercept/samples checks. -/
def ImageVolume.load_slice
    (load_pixel_data :
      PixelDataSliceInfo → Except PixelDataError (PixelDataSliceInfo × List Int))
    (v : ImageVolume) (dcmroot : SliceSource) :
    ImageVolume × Except PixelDataError Unit :=
  match dcmroot.sop_instance_id with
  | .error e => (v, .error e)
  | .ok sop_uid =>
    match dcmroot.series_instance_id with
    | .error e => (v, .error e)
    | .ok series_uid =>
      let v := { v with
        patient_name := dcmroot.patient_name.getD v.patient_name,
        patient_id := dcmroot.patient_id.getD v.patient_id }
      let series_desc := dcmroot.series_desc.getD ""
      let pdinfo := dcmroot.pdinfo
      let dims := pdinfo.vol_dims
      let stride := pdinfo.stride
      let is_rgb := pdinfo.is_rgb
      let pixel_pad := pdinfo.pixel_pad.map u16AsI16
      let slope := pdinfo.slope.getD 1
      let intercept := pdinfo.intercept.getD 0
      let samples_per_pixel := pdinfo.samples_per_pixel
      if v.infos.isEmpty then
        let v := { v with
          series_uid := series_uid, series_desc := series_desc,
          dims := dims, stride := stride, is_rgb := is_rgb,
          pixel_pad := pixel_pad, slope := slope, intercept := intercept,
          samples_per_pixel := samples_per_pixel }
        ImageVolume.load_slice_insert load_pixel_data v pdinfo
      else
        if series_uid ≠ v.series_uid then
          (v, .error (.InconsistentSliceFormat sop_uid "SeriesInstanceUID mismatch"))
        else if ¬ v.dims.matches dims then
          (v, .error (.InconsistentSliceFormat sop_uid "Dimensions mismatch"))
        else
          let v := { v with dims := v.dims.inc_z_count }
          if stride ≠ v.stride then
            (v, .error (.InconsistentSliceFormat sop_uid "Stride mismatch"))
          else if is_rgb ≠ v.is_rgb then
            (v, .error (.InconsistentSliceFormat sop_uid "RGB mismatch"))
          else if pixel_pad ≠ v.pixel_pad then
            (v, .error (.InconsistentSliceFormat sop_uid "Pixel Padding mismatch"))
          else if EPSILON_F64 < ratAbs (ratSub slope v.slope) then
            (v, .error (.InconsistentSliceFormat sop_uid "Slope mismatch"))
          else if EPSILON_F64 < ratAbs (ratSub intercept v.intercept) then
            (v, .error (.InconsistentSliceFormat sop_uid "Intercept mismatch"))
          else if samples_per_pixel ≠ v.samples_per_pixel then
            (v, .error (.InconsistentSliceFormat sop_uid "Samples per Pixel mismatch"))
          else
            ImageVolume.load_slice_insert load_pixel_data v pdinfo

/-- Embedding of `ImageVolume::get_pixel`.  The outer `Option` tracks
memory safety: `none` stands for an out-of-bounds `buffer[i]` indexing
panic (only the RGB branch indexes unchecked); `some` carries the
function's `Result`.  The monochrome branch uses the checked
`buffer.get(..)` with the pixel-pad fallback, exactly as the source. -/
def ImageVolume.get_pixel (v : ImageVolume) (coord : Nat × Nat × Nat) :
    Option (Except PixelDataError VolPixel) :=
  match v.slices.get? coord.2.2 with
  | none => some (.error (.InvalidDims "Invalid z-pos"))
  | some buffer =>
    let cols := v.dims.counts.x
    let pixel_count := (coord.1 + coord.2.1 * cols) * v.samples_per_pixel
    if pixel_count ≥ buffer.length ∨
       (v.is_rgb = true ∧ pixel_count + v.stride * 2 ≥ buffer.length) then
      some (.error (.InvalidPixelSource pixel_count))
    else if v.is_rgb then
      match buffer.get? pixel_count, buffer.get? (pixel_count + v.stride),
          buffer.get? (pixel_count + v.stride * 2) with
      | some red, some green, some blue =>
        some (.ok ⟨coord, (red : ℚ), (green : ℚ), (blue : ℚ)⟩)
      | _, _, _ => none
    else
      let applied_val :=
        ((((buffer.get? pixel_count).map (fun n => (n : ℚ))).orElse
            (fun _ => v.pixel_pad.map (fun n => (n : ℚ)))).map v.rescale).getD 0
      some (.ok ⟨coord, applied_val, applied_val, applied_val⟩)

/-- Embedding of `ImageVolumeAxisSliceIter::compute_coord`. -/
def compute_coord (vol : ImageVolume) (axis : VolAxis) (axis_index : Nat)
    (index : Nat) : Option (Nat × Nat × Nat) :=
  match axis with
  | .X =>
    let cols := vol.dims.counts.y
    let rows := vol.dims.counts.z
    if index ≥ rows * cols then none
    else some (axis_index, index % cols, (index / cols) % rows)
  | .Y =>
    let cols := vol.dims.counts.x
    let rows := vol.dims.counts.z
    if index ≥ rows * cols then none
    else some (index % cols, axis_index, (index / cols) % rows)
  | .Z =>
    let cols := vol.dims.counts.x
    let rows := vol.dims.counts.y
    if index ≥ rows * cols then none
    else some (index % cols, (index / cols) % rows, axis_index)

/-- Iterator state of `ImageVolumeAxisSliceIter` (the borrowed volume is
passed to `next` explicitly). -/
structure ImageVolumeAxisSliceIter where
  axis : VolAxis
  axis_index : Nat
  pixel_count : Nat
deriving DecidableEq

/-- Embedding of `ImageVolume::slice_iter`. -/
def ImageVolume.slice_iter (v : ImageVolume) (axis : VolAxis) (axis_index : Nat) :
    ImageVolumeAxisSliceIter :=
  { axis := axis, axis_index := axis_index, pixel_count := 0 }

/-- Embedding of `<ImageVolumeAxisSliceIter as Iterator>::next`: compute
the coordinate from the running pixel count, advance, and yield
`get_pixel(coord).ok()` — a `get_pixel` error is swallowed into `none`. -/
def ImageVolumeAxisSliceIter.next (vol : ImageVolume)
    (it : ImageVolumeAxisSliceIter) :
    Option VolPixel × ImageVolumeAxisSliceIter :=
  match compute_coord vol it.axis it.axis_index it.pixel_count with
  | none => (none, it)
  | some coord =>
    let it := { it with pixel_count := it.pixel_count + 1 }
    ((vol.get_pixel coord).bind
      (fun r => match r with | .ok px => some px | .error _ => none), it)

/-! ## Theorems for claim C2 -/

/-- If the decode-and-insert tail of `load_slice` returns an error, the
slice list, the infos, and the series fields are unchanged (min/max may
have been updated before the duplicate-z rejection). -/
theorem load_slice_insert_error_preserves
    (load_pixel_data :
      PixelDataSliceInfo → Except PixelDataError (PixelDataSliceInfo × List Int))
    (v : ImageVolume) (pdinfo : PixelDataSliceInfo) (v1 : ImageVolume)
    (e : PixelDataError)
    (h : ImageVolume.load_slice_insert load_pixel_data v pdinfo = (v1, .error e)) :
    v1.slices = v.slices ∧ v1.infos = v.infos ∧
    v1.series_uid = v.series_uid ∧ v1.series_desc = v.series_desc := by
  unfold ImageVolume.load_slice_insert at h
  dsimp only at h
  split at h
  · obtain ⟨h1, h2⟩ := Prod.mk.injEq .. |>.mp h
    rw [← h1]
    exact ⟨rfl, rfl, rfl, rfl⟩
  · split at h
    · split at h <;>
        · obtain ⟨h1, h2⟩ := Prod.mk.injEq .. |>.mp h
          cases h2
    · obtain ⟨h1, h2⟩ := Prod.mk.injEq .. |>.mp h
      rw [← h1]
      exact ⟨rfl, rfl, rfl, rfl⟩

/-- C2 (amended): if `load_slice` returns `InconsistentSliceFormat`, the
slice list and the infos are unchanged, and when the volume already held a
slice the series UID and description are unchanged too.  (The original
claim fails: the patient name/ID, the z-count, and min/max can change on
such an error — see the counterexample.) -/
theorem load_slice_error_preserves_slices
    (load_pixel_data :
      PixelDataSliceInfo → Except PixelDataError (PixelDataSliceInfo × List Int))
    (v : ImageVolume) (src : SliceSource) (v1 : ImageVolume)
    (sop reason : String)
    (h : ImageVolume.load_slice load_pixel_data v src =
      (v1, .error (.InconsistentSliceFormat sop reason))) :
    v1.slices = v.slices ∧ v1.infos = v.infos ∧
    (v.infos ≠ [] → v1.series_uid = v.series_uid ∧ v1.series_desc = v.series_desc) := by
  unfold ImageVolume.load_slice at h
  dsimp only at h
  split at h
  · obtain ⟨h1, h2⟩ := Prod.mk.injEq .. |>.mp h
    rw [← h1]
    exact ⟨rfl, rfl, fun _ => ⟨rfl, rfl⟩⟩
  · split at h
    · obtain ⟨h1, h2⟩ := Prod.mk.injEq .. |>.mp h
      rw [← h1]
      exact ⟨rfl, rfl, fun _ => ⟨rfl, rfl⟩⟩
    · rename_i sop_uid _ series_uid
      split at h
      · rename_i hempty
        obtain ⟨hs, hi, _, _⟩ :=
          load_slice_insert_error_preserves _ _ _ _ _ h
        rw [hs, hi]
        refine ⟨rfl, rfl, fun hne => absurd ?_ hne⟩
        exact List.isEmpty_iff.mp hempty
      · split at h
        · obtain ⟨h1, h2⟩ := Prod.mk.injEq .. |>.mp h
          rw [← h1]
          exact ⟨rfl, rfl, fun _ => ⟨rfl, rfl⟩⟩
        · split at h
          · obtain ⟨h1, h2⟩ := Prod.mk.injEq .. |>.mp h
            rw [← h1]
            exact ⟨rfl, rfl, fun _ => ⟨rfl, rfl⟩⟩
          · split at h
            · obtain ⟨h1, h2⟩ := Prod.mk.injEq .. |>.mp h
              rw [← h1]
              exact ⟨rfl, rfl, fun _ => ⟨rfl, rfl⟩⟩
            · split at h
              · obtain ⟨h1, h2⟩ := Prod.mk.injEq .. |>.mp h
                rw [← h1]
                exact ⟨rfl, rfl, fun _ => ⟨rfl, rfl⟩⟩
              · split at h
                · obtain ⟨h1, h2⟩ := Prod.mk.injEq .. |>.mp h
                  rw [← h1]
                  exact ⟨rfl, rfl, fun _ => ⟨rfl, rfl⟩⟩
                · split at h
                  · obtain ⟨h1, h2⟩ := Prod.mk.injEq .. |>.mp h
                    rw [← h1]
                    exact ⟨rfl, rfl, fun _ => ⟨rfl, rfl⟩⟩
                  · split at h
                    · obtain ⟨h1, h2⟩ := Prod.mk.injEq .. |>.mp h
                      rw [← h1]
                      exact ⟨rfl, rfl, fun _ => ⟨rfl, rfl⟩⟩
                    · split at h
                      · obtain ⟨h1, h2⟩ := Prod.mk.injEq .. |>.mp h
                        rw [← h1]
                        exact ⟨rfl, rfl, fun _ => ⟨rfl, rfl⟩⟩
                      · obtain ⟨hs, hi, hu, hd⟩ :=
                          load_slice_insert_error_preserves _ _ _ _ _ h
                        rw [hs, hi, hu, hd]
                        exact ⟨rfl, rfl, fun _ => ⟨rfl, rfl⟩⟩

/-- A minimal 1x1 16-bit monochrome slice info (value 1) at z = 1. -/
def exInfoC2A : PixelDataSliceInfo where
  sop_uid := "A"
  big_endian := false
  vr := VR.OW
  slice_thickness := 1
  spacing_between_slices := 0
  samples_per_pixel := 1
  photo_interp := some PhotoInterp.Monochrome2
  planar_config := 0
  num_frames := 1
  cols := 1
  rows := 1
  pixel_spacing := (1, 1)
  pixel_pad := none
  bits_alloc := BitsAlloc.Sixteen
  bits_stored := 16
  high_bit := 15
  pixel_rep := 1
  slope := none
  intercept := none
  unit := ""
  patient_pos := ""
  image_pos := ⟨0, 0, 1⟩
  min_val := 0
  max_val := 0
  win_levels := []
  pd_bytes := [1, 0]
  vol_dims_geom :=
    { origin_x := 0, origin_y := 0, origin_z := 1,
      counts := ⟨1, 1, 1⟩, vox_dims := ⟨1, 1, 1⟩ }

/-- The root carrying `exInfoC2A` with patient name "PAT A". -/
def exSrcC2A : SliceSource :=
  ⟨.ok "A", .ok "S", some "PAT A", some "ID", some "DESC", exInfoC2A⟩

/-- The volume after loading `exSrcC2A` into an empty volume. -/
def exVolC2A : ImageVolume :=
  (ImageVolume.load_slice PixelDataSliceI16.from_mono_16bit
    ImageVolume.default exSrcC2A).1

/-- A second slice whose geometry matches `exInfoC2A` but with
`PlanarConfiguration = 1`, so its stride (`pd_bytes.len / samples = 2`)
differs from the volume's stride 1. -/
def exInfoC2B : PixelDataSliceInfo :=
  { exInfoC2A with
    sop_uid := "B"
    planar_config := 1
    image_pos := ⟨0, 0, 5⟩
    pd_bytes := [2, 0]
    vol_dims_geom :=
      { origin_x := 0, origin_y := 0, origin_z := 5,
        counts := ⟨1, 1, 1⟩, vox_dims := ⟨1, 1, 1⟩ } }

/-- The root carrying `exInfoC2B`, naming a different patient. -/
def exSrcC2B : SliceSource :=
  ⟨.ok "B", .ok "S", some "NEW NAME", some "ID", some "DESC", exInfoC2B⟩

/-- C2 (counterexample): loading `exSrcC2B` into `exVolC2A` fails with
`InconsistentSliceFormat` (stride mismatch), yet the volume's observable
state changed: `dims.counts.z` was incremented from 1 to 2 (the dimensions
matched before the stride check failed) and the patient name was
overwritten.  This refutes the claim that the state after the call equals
the state before it. -/
theorem load_slice_inconsistent_mutates_state :
    (ImageVolume.load_slice PixelDataSliceI16.from_mono_16bit exVolC2A exSrcC2B).2 =
      .error (.InconsistentSliceFormat "B" "Stride mismatch") ∧
    exVolC2A.dims.counts.z = 1 ∧
    (ImageVolume.load_slice PixelDataSliceI16.from_mono_16bit exVolC2A
      exSrcC2B).1.dims.counts.z = 2 ∧
    exVolC2A.patient_name = "PAT A" ∧
    (ImageVolume.load_slice PixelDataSliceI16.from_mono_16bit exVolC2A
      exSrcC2B).1.patient_name = "NEW NAME" :=
  ⟨rfl, rfl, rfl, rfl, rfl⟩

/-- C2 (witness for the amended theorem): at the stride-mismatch rejection
above, the slice list, infos, series UID and series description are
unchanged. -/
theorem load_slice_error_preserves_slices_witness :
    (ImageVolume.load_slice PixelDataSliceI16.from_mono_16bit exVolC2A
        exSrcC2B).1.slices = exVolC2A.slices ∧
    (ImageVolume.load_slice PixelDataSliceI16.from_mono_16bit exVolC2A
        exSrcC2B).1.infos = exVolC2A.infos ∧
    (exVolC2A.infos ≠ [] →
      (ImageVolume.load_slice PixelDataSliceI16.from_mono_16bit exVolC2A
          exSrcC2B).1.series_uid = exVolC2A.series_uid ∧
      (ImageVolume.load_slice PixelDataSliceI16.from_mono_16bit exVolC2A
          exSrcC2B).1.series_desc = exVolC2A.series_desc) :=
  load_slice_error_preserves_slices PixelDataSliceI16.from_mono_16bit
    exVolC2A exSrcC2B _ "B" "Stride mismatch" rfl

/-! ## Theorems for claim C3 -/

/-- A 1x1 slice at z = 1. -/
def exInfoC3A : PixelDataSliceInfo :=
  { exInfoC2A with sop_uid := "A3" }

/-- A matching 1x1 slice at z = 2. -/
def exInfoC3B : PixelDataSliceInfo :=
  { exInfoC2A with
    sop_uid := "B3"
    image_pos := ⟨0, 0, 2⟩
    pd_bytes := [2, 0]
    vol_dims_geom :=
      { origin_x := 0, origin_y := 0, origin_z := 2,
        counts := ⟨1, 1, 1⟩, vox_dims := ⟨1, 1, 1⟩ } }

/-- Another matching slice at the same z = 2 (distinct SOP). -/
def exInfoC3B2 : PixelDataSliceInfo :=
  { exInfoC3B with sop_uid := "B3x", pd_bytes := [3, 0] }

def exSrcC3A : SliceSource :=
  ⟨.ok "A3", .ok "S3", some "P", some "ID", some "D", exInfoC3A⟩

def exSrcC3B : SliceSource :=
  ⟨.ok "B3", .ok "S3", some "P", some "ID", some "D", exInfoC3B⟩

def exSrcC3B2 : SliceSource :=
  ⟨.ok "B3x", .ok "S3", some "P", some "ID", some "D", exInfoC3B2⟩

/-- The volume after loading the z = 1 slice. -/
def exVolC3A : ImageVolume :=
  (ImageVolume.load_slice PixelDataSliceI16.from_mono_16bit
    ImageVolume.default exSrcC3A).1

/-- The volume after additionally loading the z = 2 slice. -/
def exVolC3B : ImageVolume :=
  (ImageVolume.load_slice PixelDataSliceI16.from_mono_16bit
    exVolC3A exSrcC3B).1

/-- C3 (behaviour at the failing input): loading slices at z = 1 then
z = 2 succeeds, but the slice list ends up ordered `[z=2, z=1]` —
descending, because `load_slice` passes `cmp_by_zpos(seek, probe)` to
`binary_search_by`, whose contract expects `probe.cmp(seek)` — so
`slices[0].z <= slices[1].z` fails, and the volume origin is reset to the
highest-z slice's origin; loading a third slice at the duplicate z = 2 is
rejected with the duplicate-z `InconsistentSliceFormat` error (that half
of the claim holds). -/
theorem load_slice_zpos_order_descending :
    (ImageVolume.load_slice PixelDataSliceI16.from_mono_16bit
      ImageVolume.default exSrcC3A).2 = .ok () ∧
    (ImageVolume.load_slice PixelDataSliceI16.from_mono_16bit
      exVolC3A exSrcC3B).2 = .ok () ∧
    (exVolC3B.infos.get? 0).map (fun i => i.image_pos.z) = some 2 ∧
    (exVolC3B.infos.get? 1).map (fun i => i.image_pos.z) = some 1 ∧
    ¬ ((2 : ℚ) ≤ (1 : ℚ)) ∧
    exVolC3B.dims.origin_z = 2 ∧
    (ImageVolume.load_slice PixelDataSliceI16.from_mono_16bit
      exVolC3B exSrcC3B2).2 =
      .error (.InconsistentSliceFormat "B3x" "Multiple slices in the same z-pos") :=
  ⟨rfl, rfl, rfl, rfl, by decide, rfl, rfl⟩

/-! ## Theorems for claim C9 -/

/-- A 2x2 16-bit monochrome slice with pixel values 10, 11, 12, 13. -/
def exInfoC9 : PixelDataSliceInfo :=
  { exInfoC2A with
    sop_uid := "C9"
    cols := 2
    rows := 2
    image_pos := ⟨0, 0, 0⟩
    pd_bytes := [10, 0, 11, 0, 12, 0, 13, 0]
    vol_dims_geom :=
      { origin_x := 0, origin_y := 0, origin_z := 0,
        counts := ⟨2, 2, 1⟩, vox_dims := ⟨1, 1, 1⟩ } }

def exSrcC9 : SliceSource :=
  ⟨.ok "C9", .ok "S9", some "P", some "ID", some "D", exInfoC9⟩

/-- The 2x2x1 volume (buffer `[10, 11, 12, 13]`). -/
def exVolC9 : ImageVolume :=
  (ImageVolume.load_slice PixelDataSliceI16.from_mono_16bit
    ImageVolume.default exSrcC9).1

/-- C9 (behaviour at the failing input): in the 2x2x1 volume, requesting
the X-axis plane at index 2 — outside the x-extent (counts.x = 2) — does
not yield `InvalidDims`: `compute_coord` never bounds-checks `axis_index`,
`get_pixel (2, 0, 0)` returns a pixel whose value 12 is aliased from
another row of the buffer, and the axis-slice iterator yields that pixel. -/
theorem slice_iter_oob_axis_index_yields_pixel :
    (ImageVolume.load_slice PixelDataSliceI16.from_mono_16bit
      ImageVolume.default exSrcC9).2 = .ok () ∧
    exVolC9.dims.counts.x = 2 ∧
    exVolC9.dims.counts.y = 2 ∧
    exVolC9.dims.counts.z = 1 ∧
    compute_coord exVolC9 VolAxis.X 2 0 = some (2, 0, 0) ∧
    exVolC9.get_pixel (2, 0, 0) = some (.ok ⟨(2, 0, 0), 12, 12, 12⟩) ∧
    (ImageVolumeAxisSliceIter.next exVolC9 (exVolC9.slice_iter VolAxis.X 2)).1 =
      some ⟨(2, 0, 0), 12, 12, 12⟩ :=
  ⟨rfl, rfl, rfl, rfl, rfl, rfl, rfl⟩

/-! ## Theorem for claim C10 -/

/-- C10: `get_pixel` is total and never reads outside a slice buffer: for
every volume and coordinate it returns (`some`, i.e. no indexing panic)
either a pixel, or `InvalidDims` exactly when `z` is not a loaded slice, or
`InvalidPixelSource` carrying the computed sample index exactly when that
index (or, for RGB, the index plus twice the stride) is not below the
buffer length; the unchecked RGB buffer reads happen only after that bounds
check succeeds, and the monochrome read is the checked lookup with the
pixel-pad fallback. -/
theorem get_pixel_total (v : ImageVolume) (coord : Nat × Nat × Nat) :
    (∃ px, v.get_pixel coord = some (.ok px)) ∨
    (v.get_pixel coord = some (.error (.InvalidDims "Invalid z-pos")) ∧
      v.slices.get? coord.2.2 = none) ∨
    (∃ buffer, v.slices.get? coord.2.2 = some buffer ∧
      v.get_pixel coord = some (.error (.InvalidPixelSource
        ((coord.1 + coord.2.1 * v.dims.counts.x) * v.samples_per_pixel))) ∧
      ((coord.1 + coord.2.1 * v.dims.counts.x) * v.samples_per_pixel ≥
          buffer.length ∨
        (v.is_rgb = true ∧
          (coord.1 + coord.2.1 * v.dims.counts.x) * v.samples_per_pixel +
            v.stride * 2 ≥ buffer.length))) := by
  cases hz : v.slices.get? coord.2.2 with
  | none =>
    right; left
    constructor
    · unfold ImageVolume.get_pixel
      rw [hz]
    · rfl
  | some buffer =>
    by_cases hbound : (coord.1 + coord.2.1 * v.dims.counts.x) * v.samples_per_pixel ≥
        buffer.length ∨
        (v.is_rgb = true ∧
          (coord.1 + coord.2.1 * v.dims.counts.x) * v.samples_per_pixel +
            v.stride * 2 ≥ buffer.length)
    · right; right
      refine ⟨buffer, rfl, ?_, hbound⟩
      unfold ImageVolume.get_pixel
      rw [hz]
      dsimp only
      rw [if_pos hbound]
    · left
      have hlen : (coord.1 + coord.2.1 * v.dims.counts.x) * v.samples_per_pixel <
          buffer.length := by
        by_contra hcon
        exact hbound (Or.inl (by omega))
      cases hrgb : v.is_rgb with
      | false =>
        refine ⟨⟨coord,
          ((((buffer.get? ((coord.1 + coord.2.1 * v.dims.counts.x) *
                v.samples_per_pixel)).map (fun n => (n : ℚ))).orElse
              (fun _ => v.pixel_pad.map (fun n => (n : ℚ)))).map v.rescale).getD 0,
          ((((buffer.get? ((coord.1 + coord.2.1 * v.dims.counts.x) *
                v.samples_per_pixel)).map (fun n => (n : ℚ))).orElse
              (fun _ => v.pixel_pad.map (fun n => (n : ℚ)))).map v.rescale).getD 0,
          ((((buffer.get? ((coord.1 + coord.2.1 * v.dims.counts.x) *
                v.samples_per_pixel)).map (fun n => (n : ℚ))).orElse
              (fun _ => v.pixel_pad.map (fun n => (n : ℚ)))).map v.rescale).getD 0⟩,
          ?_⟩
        unfold ImageVolume.get_pixel
        rw [hz]
        dsimp only
        rw [if_neg hbound, if_neg (by simp [hrgb])]
      | true =>
        have hrgbbound : (coord.1 + coord.2.1 * v.dims.counts.x) *
            v.samples_per_pixel + v.stride * 2 < buffer.length := by
          by_contra hcon
          exact hbound (Or.inr ⟨hrgb, by omega⟩)
        cases hred : buffer.get? ((coord.1 + coord.2.1 * v.dims.counts.x) *
            v.samples_per_pixel) with
        | none =>
          exact absurd (List.get?_eq_none.mp hred) (by omega)
        | some red =>
          cases hgreen : buffer.get? ((coord.1 + coord.2.1 * v.dims.counts.x) *
              v.samples_per_pixel + v.stride) with
          | none =>
            exact absurd (List.get?_eq_none.mp hgreen) (by omega)
          | some green =>
            cases hblue : buffer.get? ((coord.1 + coord.2.1 * v.dims.counts.x) *
                v.samples_per_pixel + v.stride * 2) with
            | none =>
              exact absurd (List.get?_eq_none.mp hblue) (by omega)
            | some blue =>
              refine ⟨⟨coord, (red : ℚ), (green : ℚ), (blue : ℚ)⟩, ?_⟩
              unfold ImageVolume.get_pixel
              rw [hz]
              dsimp only
              rw [if_neg hbound, if_pos hrgb, hred, hgreen, hblue]
